import Mathlib

/-!
Gardener: status generation tracking and the provider-local network actuator

A shallow embedding of

* `pkg/registry/core/shootextensionstatus/strategy.go`
  (`PrepareForCreate`, `PrepareForUpdate`, `mustIncreaseGeneration`), and
* `pkg/provider-local/controller/network/actuator.go`
  (`Reconcile`, `Delete`, `Migrate`, `Restore`),

followed by the properties established about them.
-/

namespace Gardener

/-! ## Machine integers -/

/-- Smallest value of a Go `int64`. -/
def minInt64 : Int := -9223372036854775808

/-- Largest value of a Go `int64`. -/
def maxInt64 : Int := 9223372036854775807

/-- Reduction of a mathematical integer to the `int64` it denotes
(two's complement wrap-around). -/
def wrapInt64 (x : Int) : Int := (x + 9223372036854775808) % 18446744073709551616 - 9223372036854775808

/-- Go's `+` on `int64`. -/
def addInt64 (a b : Int) : Int := wrapInt64 (a + b)

/-! ## Kubernetes object metadata -/

/-- The fields of `metav1.ObjectMeta` that the embedded code reads or writes.
`Generation` is an `int64`; `DeletionTimestamp` is a `*metav1.Time` (`none` is
the nil pointer, the payload is the time in seconds); `Labels` and
`Annotations` are `map[string]string`, listed in the order of the source
literal.  The defaults are Go's zero values. -/
structure ObjectMeta where
  Name : String := ""
  Namespace : String := ""
  Generation : Int := 0
  DeletionTimestamp : Option Int := none
  Labels : List (String × String) := []
  Annotations : List (String × String) := []
deriving DecidableEq, Repr

/-! ## `shootextensionstatus` strategy -/

namespace shootextensionstatus

/-- The record `core.ShootExtensionStatus`: object metadata (embedded in the Go
struct, hence kept as a field here) and the sub-statuses.  The type of the
`Statuses` field is declared outside the strategy package; the strategy only
ever hands it to `apiequality.Semantic.DeepEqual`, so it is a type parameter
`σ` here. -/
structure ShootExtensionStatus (σ : Type) where
  ObjectMeta : ObjectMeta
  Statuses : σ
deriving DecidableEq, Repr

variable {σ : Type}

/-- Field promotion of the embedded `ObjectMeta`: `x.Generation`. -/
def ShootExtensionStatus.Generation (x : ShootExtensionStatus σ) : Int :=
  x.ObjectMeta.Generation

/-- Field promotion of the embedded `ObjectMeta`: `x.DeletionTimestamp`. -/
def ShootExtensionStatus.DeletionTimestamp (x : ShootExtensionStatus σ) : Option Int :=
  x.ObjectMeta.DeletionTimestamp

/-- The assignment `x.Generation = g`. -/
def ShootExtensionStatus.setGeneration (x : ShootExtensionStatus σ) (g : Int) :
    ShootExtensionStatus σ :=
  { x with ObjectMeta := { x.ObjectMeta with Generation := g } }

/-- `PrepareForCreate`: `extensionStatus.Generation = 1`.  The mutated object is
returned. -/
def PrepareForCreate (obj : ShootExtensionStatus σ) : ShootExtensionStatus σ :=
  obj.setGeneration 1

/-- `mustIncreaseGeneration`.  `DeepEqual` stands for
`apiequality.Semantic.DeepEqual` on the type of `Statuses`. -/
def mustIncreaseGeneration (DeepEqual : σ → σ → Bool)
    (oldShootExtensionStatus newShootExtensionStatus : ShootExtensionStatus σ) : Bool :=
  -- The ShootState specification changes.
  if !DeepEqual oldShootExtensionStatus.Statuses newShootExtensionStatus.Statuses then
    true
  -- The deletion timestamp was set.
  else if oldShootExtensionStatus.DeletionTimestamp == none
      && newShootExtensionStatus.DeletionTimestamp != none then
    true
  else
    false

/-- `PrepareForUpdate(ctx, obj, old)`.  The mutated `obj` is returned; `old` is
only read. -/
def PrepareForUpdate (DeepEqual : σ → σ → Bool)
    (obj old : ShootExtensionStatus σ) : ShootExtensionStatus σ :=
  if mustIncreaseGeneration DeepEqual old obj then
    obj.setGeneration (addInt64 old.Generation 1)
  else
    obj

/-- The condition of the specification for a generation bump: (a) the
sub-statuses of `old` and `new` differ under semantic deep comparison, or
(b) `old` has no deletion timestamp and `new` has one. -/
def generationBumpCondition (DeepEqual : σ → σ → Bool)
    (old new : ShootExtensionStatus σ) : Prop :=
  DeepEqual old.Statuses new.Statuses = false ∨
    (old.DeletionTimestamp = none ∧ new.DeletionTimestamp ≠ none)

instance (DeepEqual : σ → σ → Bool) (old new : ShootExtensionStatus σ) :
    Decidable (generationBumpCondition DeepEqual old new) := by
  unfold generationBumpCondition
  infer_instance

/-- The record stored after creating `created` and then applying the first `i`
of the submitted update objects `updates`, each one prepared against the
record stored just before it. -/
def stored (DeepEqual : σ → σ → Bool) (created : ShootExtensionStatus σ)
    (updates : List (ShootExtensionStatus σ)) (i : Nat) : ShootExtensionStatus σ :=
  (updates.take i).foldl (fun old obj => PrepareForUpdate DeepEqual obj old)
    (PrepareForCreate created)

/-! ### A concrete instance: a slice of named sub-statuses -/

/-- Sub-statuses as a slice of (name, value) entries. -/
abbrev NamedStatuses : Type := List (String × String)

/-- Semantic deep equality on a slice of comparable entries: element-wise
equality in order, the nil slice and the empty slice being equal (both are
`[]` here). -/
def sliceDeepEqual (a b : NamedStatuses) : Bool := decide (a = b)

/-- A record holding only a generation, a deletion timestamp and sub-statuses. -/
def mkRecord (generation : Int) (deletion : Option Int) (statuses : NamedStatuses) :
    ShootExtensionStatus NamedStatuses :=
  { ObjectMeta :=
      { Name := "status", Namespace := "garden-dev", Generation := generation,
        DeletionTimestamp := deletion, Labels := [], Annotations := [] },
    Statuses := statuses }

/-- A submitted sequence of updates in which every object carries the stored
generation: a changed sub-status, a no-op, and a newly set deletion timestamp. -/
def exampleUpdates : List (ShootExtensionStatus NamedStatuses) :=
  [mkRecord 1 none [("a", "y")], mkRecord 2 none [("a", "y")], mkRecord 2 (some 9) [("a", "y")]]

/-- The record `x` with its labels replaced: a change of metadata only. -/
def relabel (x : ShootExtensionStatus σ) (labels : List (String × String)) :
    ShootExtensionStatus σ :=
  { x with ObjectMeta := { x.ObjectMeta with Labels := labels } }

end shootextensionstatus

/-! ## Kubernetes objects built by the network actuator

Each structure lists the fields that the actuator's object literals set; a
pointer field is an `Option`, a slice is a `List`, a `map[string]T` is an
association list in the order of the source literal. -/

namespace k8s

/-- Subset of `rbacv1.PolicyRule`. -/
structure PolicyRule where
  APIGroups : List String := []
  Resources : List String := []
  Verbs : List String := []
deriving DecidableEq, Repr

/-- The type `corev1.ServiceAccount`. -/
structure ServiceAccount where
  ObjectMeta : ObjectMeta := {}
deriving DecidableEq, Repr

/-- The type `rbacv1.ClusterRole`. -/
structure ClusterRole where
  ObjectMeta : ObjectMeta := {}
  Rules : List PolicyRule := []
deriving DecidableEq, Repr

/-- The type `rbacv1.RoleRef`. -/
structure RoleRef where
  APIGroup : String := ""
  Kind : String := ""
  Name : String := ""
deriving DecidableEq, Repr

/-- The type `rbacv1.Subject`. -/
structure Subject where
  Kind : String := ""
  Name : String := ""
  Namespace : String := ""
deriving DecidableEq, Repr

/-- The type `rbacv1.ClusterRoleBinding`. -/
structure ClusterRoleBinding where
  ObjectMeta : ObjectMeta := {}
  RoleRef : RoleRef := {}
  Subjects : List Subject := []
deriving DecidableEq, Repr

/-- The type `corev1.ObjectFieldSelector`. -/
structure ObjectFieldSelector where
  FieldPath : String := ""
deriving DecidableEq, Repr

/-- The type `corev1.EnvVarSource`. -/
structure EnvVarSource where
  FieldRef : Option ObjectFieldSelector := none
deriving DecidableEq, Repr

/-- The type `corev1.EnvVar`. -/
structure EnvVar where
  Name : String := ""
  Value : String := ""
  ValueFrom : Option EnvVarSource := none
deriving DecidableEq, Repr

/-- The type `corev1.ResourceRequirements`; a `corev1.ResourceList` maps
resource names to quantities, a quantity being kept as the literal handed to
`resource.MustParse`. -/
structure ResourceRequirements where
  Requests : List (String × String) := []
  Limits : List (String × String) := []
deriving DecidableEq, Repr

/-- The type `corev1.Capabilities`. -/
structure Capabilities where
  Add : List String := []
deriving DecidableEq, Repr

/-- The type `corev1.SecurityContext`. -/
structure SecurityContext where
  Privileged : Option Bool := none
  Capabilities : Option Capabilities := none
deriving DecidableEq, Repr

/-- The type `corev1.VolumeMount`. -/
structure VolumeMount where
  Name : String := ""
  MountPath : String := ""
  ReadOnly : Bool := false
deriving DecidableEq, Repr

/-- The type `corev1.Container`. -/
structure Container where
  Env : List EnvVar := []
  Name : String := ""
  Image : String := ""
  ImagePullPolicy : String := ""
  Resources : ResourceRequirements := {}
  SecurityContext : Option SecurityContext := none
  VolumeMounts : List VolumeMount := []
deriving DecidableEq, Repr

/-- The type `corev1.Toleration`. -/
structure Toleration where
  Operator : String := ""
deriving DecidableEq, Repr

/-- The type `corev1.HostPathVolumeSource`; `Type_` is the field `Type`, a `*corev1.HostPathType`. -/
structure HostPathVolumeSource where
  Path : String := ""
  Type_ : Option String := none
deriving DecidableEq, Repr

/-- The type `corev1.VolumeSource`. -/
structure VolumeSource where
  HostPath : Option HostPathVolumeSource := none
deriving DecidableEq, Repr

/-- The type `corev1.Volume`. -/
structure Volume where
  Name : String := ""
  VolumeSource : VolumeSource := {}
deriving DecidableEq, Repr

/-- The type `corev1.PodSpec`. -/
structure PodSpec where
  Containers : List Container := []
  HostNetwork : Bool := false
  ServiceAccountName : String := ""
  Tolerations : List Toleration := []
  Volumes : List Volume := []
deriving DecidableEq, Repr

/-- The type `corev1.PodTemplateSpec`. -/
structure PodTemplateSpec where
  ObjectMeta : ObjectMeta := {}
  Spec : PodSpec := {}
deriving DecidableEq, Repr

/-- The type `metav1.LabelSelector`. -/
structure LabelSelector where
  MatchLabels : List (String × String) := []
deriving DecidableEq, Repr

/-- The type `intstr.IntOrString`. -/
inductive IntOrString where
  | FromInt (val : Int)
  | FromString (val : String)
deriving DecidableEq, Repr

/-- The type `appsv1.RollingUpdateDaemonSet`. -/
structure RollingUpdateDaemonSet where
  MaxSurge : Option IntOrString := none
  MaxUnavailable : Option IntOrString := none
deriving DecidableEq, Repr

/-- The type `appsv1.DaemonSetUpdateStrategy`; `Type_` is the field `Type`. -/
structure DaemonSetUpdateStrategy where
  Type_ : String := ""
  RollingUpdate : Option RollingUpdateDaemonSet := none
deriving DecidableEq, Repr

/-- The type `appsv1.DaemonSetSpec`; `RevisionHistoryLimit` is a `*int32`. -/
structure DaemonSetSpec where
  RevisionHistoryLimit : Option Int := none
  Selector : Option LabelSelector := none
  UpdateStrategy : DaemonSetUpdateStrategy := {}
  Template : PodTemplateSpec := {}
deriving DecidableEq, Repr

/-- The type `appsv1.DaemonSet`. -/
structure DaemonSet where
  ObjectMeta : ObjectMeta := {}
  Spec : DaemonSetSpec := {}
deriving DecidableEq, Repr

/-- The `client.Object` values that the actuator hands to the registry: one
constructor per concrete Go type. -/
inductive Object where
  | ServiceAccount (o : ServiceAccount)
  | ClusterRole (o : ClusterRole)
  | ClusterRoleBinding (o : ClusterRoleBinding)
  | DaemonSet (o : DaemonSet)
deriving DecidableEq, Repr

/-- The constant `metav1.NamespaceSystem`. -/
def NamespaceSystem : String := "kube-system"

/-- The constant `rbacv1.GroupName`. -/
def GroupName : String := "rbac.authorization.k8s.io"

/-- The constant `rbacv1.ServiceAccountKind`. -/
def ServiceAccountKind : String := "ServiceAccount"

/-- The constant `corev1.HostPathFileOrCreate`. -/
def HostPathFileOrCreate : String := "FileOrCreate"

/-- The constant `corev1.PullIfNotPresent`. -/
def PullIfNotPresent : String := "IfNotPresent"

/-- The constant `corev1.TolerationOpExists`. -/
def TolerationOpExists : String := "Exists"

/-- The constant `corev1.ResourceCPU`. -/
def ResourceCPU : String := "cpu"

/-- The constant `corev1.ResourceMemory`. -/
def ResourceMemory : String := "memory"

/-- The constant `appsv1.RollingUpdateDaemonSetStrategyType`. -/
def RollingUpdateDaemonSetStrategyType : String := "RollingUpdate"

end k8s

/-! ## The provider-local network actuator -/

namespace network

/-- The part of `extensionsv1alpha1.NetworkSpec` that is a plain string. -/
structure NetworkSpec where
  PodCIDR : String := ""
  ServiceCIDR : String := ""
deriving DecidableEq, Repr

/-- The resource `extensionsv1alpha1.Network`.  The actuator receives a
pointer that it dereferences unconditionally; the embedding takes the value. -/
structure Network where
  ObjectMeta : ObjectMeta := {}
  Spec : NetworkSpec := {}
deriving DecidableEq, Repr

/-- Field promotion of the embedded `ObjectMeta`: `network.Namespace`. -/
def Network.Namespace (n : Network) : String := n.ObjectMeta.Namespace

/-- The field `Shoot.Spec.Kubernetes`. -/
structure Kubernetes where
  Version : String := ""
deriving DecidableEq, Repr

/-- The field `Shoot.Spec`. -/
structure ShootSpec where
  Kubernetes : Kubernetes := {}
deriving DecidableEq, Repr

/-- The part of the shoot that the actuator reads. -/
structure Shoot where
  Spec : ShootSpec := {}
deriving DecidableEq, Repr

/-- The cluster context `extensionscontroller.Cluster`.  `Reconcile`
dereferences `cluster.Shoot` unconditionally; the embedding takes the value. -/
structure Cluster where
  Shoot : Shoot := {}
deriving DecidableEq, Repr

/-- The constant `managedResourceName`. -/
def managedResourceName : String := "extension-networking-local"

/-- What the actuator uses and does not define itself.  `ε` is the type of
non-nil `error` values, `ι` the type of images, `δ` the type of serialized
bundles (`map[string][]byte`), `ω` the state of everything reached through the
context and `a.Client()`. -/
structure Env (ε ι δ ω : Type) where
  /-- The constant `charts.ImageNameKindnet`. -/
  ImageNameKindnet : String
  /-- The constant `resourcesv1alpha1.DeleteOnInvalidUpdate`. -/
  DeleteOnInvalidUpdate : String
  /-- The call `localimagevector.ImageVector().FindImage(name, imagevector.TargetVersion(version))`. -/
  FindImage : String → String → Except ε ι
  /-- The method `image.String()`. -/
  ImageString : ι → String
  /-- The call `registry.AddAllAndSerialize(objects...)` on the registry that
  `Reconcile` has just created with `managedresources.NewRegistry`. -/
  AddAllAndSerialize : List k8s.Object → Except ε δ
  /-- The call `managedresources.CreateForShoot(ctx, a.Client(), namespace, name, flag, data)`:
  the returned error (`none` is nil) and the state it leaves. -/
  CreateForShoot : ω → String → String → Bool → δ → Option ε × ω
  /-- The call `managedresources.DeleteForShoot(ctx, a.Client(), namespace, name)`:
  the returned error (`none` is nil) and the state it leaves. -/
  DeleteForShoot : ω → String → String → Option ε × ω

/-- A call that a lifecycle operation makes outside the actuator, with its
arguments: the image lookup, the serialization of the rendered objects, and the
two calls to the resource applier. -/
inductive Call (δ : Type) where
  | FindImage (name targetVersion : String)
  | AddAllAndSerialize (objects : List k8s.Object)
  | CreateForShoot (namespace_ name : String) (flag : Bool) (data : δ)
  | DeleteForShoot (namespace_ name : String)
deriving DecidableEq, Repr

/-- Whether a call goes to the resource applier. -/
def Call.isApplierCall {δ : Type} : Call δ → Bool
  | .CreateForShoot _ _ _ _ => true
  | .DeleteForShoot _ _ => true
  | _ => false

/-- The managed-resource handle (namespace, name) that a call to the resource
applier addresses. -/
def Call.handle {δ : Type} : Call δ → Option (String × String)
  | .CreateForShoot ns name _ _ => some (ns, name)
  | .DeleteForShoot ns name => some (ns, name)
  | _ => none

/-- What a lifecycle operation does: the `error` it returns (`none` is nil),
the outside calls it made, in order, and the state it leaves. -/
structure Result (ε δ ω : Type) where
  err : Option ε
  calls : List (Call δ)
  state : ω
deriving DecidableEq, Repr

variable {ε ι δ ω : Type}

/-- The calls to the resource applier among the calls of a result, in order. -/
def Result.applierCalls (r : Result ε δ ω) : List (Call δ) :=
  r.calls.filter Call.isApplierCall

/-- The managed-resource handles addressed by the calls of a result, in order. -/
def Result.handles (r : Result ε δ ω) : List (String × String) :=
  r.calls.filterMap Call.handle

/-- Local variable `labels` of `Reconcile`. -/
def labels : List (String × String) := [("app", "kindnet")]

/-- Local variable `fileOrCreate` of `Reconcile`. -/
def fileOrCreate : String := k8s.HostPathFileOrCreate

/-- Local variable `maxSurge` of `Reconcile`. -/
def maxSurge : k8s.IntOrString := k8s.IntOrString.FromInt 0

/-- Local variable `maxUnavailable` of `Reconcile`. -/
def maxUnavailable : k8s.IntOrString := k8s.IntOrString.FromInt 1

/-- Local variable `serviceAccount` of `Reconcile`. -/
def serviceAccount : k8s.ServiceAccount :=
  { ObjectMeta := { Name := "kindnet", Namespace := k8s.NamespaceSystem } }

/-- Local variable `clusterRole` of `Reconcile`. -/
def clusterRole : k8s.ClusterRole :=
  { ObjectMeta := { Name := "kindnet" },
    Rules := [
      { APIGroups := [""],
        Resources := ["nodes"],
        Verbs := ["list", "watch"] } ] }

/-- Local variable `clusterRoleBinding` of `Reconcile`. -/
def clusterRoleBinding (env : Env ε ι δ ω) : k8s.ClusterRoleBinding :=
  { ObjectMeta :=
      { Name := "kindnet",
        Annotations := [(env.DeleteOnInvalidUpdate, "true")] },
    RoleRef :=
      { APIGroup := k8s.GroupName,
        Kind := "ClusterRole",
        Name := clusterRole.ObjectMeta.Name },
    Subjects := [
      { Kind := k8s.ServiceAccountKind,
        Name := serviceAccount.ObjectMeta.Name,
        Namespace := serviceAccount.ObjectMeta.Namespace } ] }

/-- Local variable `daemonSet` of `Reconcile`; `image` is `image.String()`. -/
def daemonSet (network : Network) (image : String) : k8s.DaemonSet :=
  { ObjectMeta :=
      { Name := "kindnet",
        Namespace := k8s.NamespaceSystem,
        Labels := labels },
    Spec :=
      { RevisionHistoryLimit := some 2,
        Selector := some { MatchLabels := labels },
        UpdateStrategy :=
          { Type_ := k8s.RollingUpdateDaemonSetStrategyType,
            RollingUpdate := some
              { MaxSurge := some maxSurge,
                MaxUnavailable := some maxUnavailable } },
        Template :=
          { ObjectMeta := { Labels := labels },
            Spec :=
              { Containers := [
                  { Env := [
                      { Name := "HOST_IP",
                        ValueFrom := some { FieldRef := some { FieldPath := "status.hostIP" } } },
                      { Name := "POD_IP",
                        ValueFrom := some { FieldRef := some { FieldPath := "status.podIP" } } },
                      { Name := "POD_SUBNET",
                        Value := network.Spec.PodCIDR } ],
                    Name := "kindnet-cni",
                    Image := image,
                    ImagePullPolicy := k8s.PullIfNotPresent,
                    Resources :=
                      { Requests := [(k8s.ResourceCPU, "100m"), (k8s.ResourceMemory, "50Mi")],
                        Limits := [(k8s.ResourceCPU, "100m"), (k8s.ResourceMemory, "50Mi")] },
                    SecurityContext := some
                      { Privileged := some false,
                        Capabilities := some { Add := ["NET_RAW", "NET_ADMIN"] } },
                    VolumeMounts := [
                      { Name := "cni-cfg", MountPath := "/etc/cni/net.d" },
                      { Name := "xtables-lock", MountPath := "/run/xtables.lock" },
                      { Name := "lib-modules", MountPath := "/lib/modules", ReadOnly := true } ] } ],
                HostNetwork := true,
                ServiceAccountName := serviceAccount.ObjectMeta.Name,
                Tolerations := [{ Operator := k8s.TolerationOpExists }],
                Volumes := [
                  { Name := "cni-cfg",
                    VolumeSource := { HostPath := some { Path := "/etc/cni/net.d" } } },
                  { Name := "xtables-lock",
                    VolumeSource :=
                      { HostPath := some { Path := "/run/xtables.lock", Type_ := some fileOrCreate } } },
                  { Name := "lib-modules",
                    VolumeSource := { HostPath := some { Path := "/lib/modules" } } } ] } } } }

/-- The argument list of `registry.AddAllAndSerialize` in `Reconcile`. -/
def objects (env : Env ε ι δ ω) (network : Network) (image : String) : List k8s.Object :=
  [ k8s.Object.ServiceAccount serviceAccount,
    k8s.Object.ClusterRole clusterRole,
    k8s.Object.ClusterRoleBinding (clusterRoleBinding env),
    k8s.Object.DaemonSet (daemonSet network image) ]

/-- The method `(*actuator).Reconcile`, run in state `s`. -/
def Reconcile (env : Env ε ι δ ω) (network : Network) (cluster : Cluster) (s : ω) :
    Result ε δ ω :=
  let findImage := Call.FindImage env.ImageNameKindnet cluster.Shoot.Spec.Kubernetes.Version
  match env.FindImage env.ImageNameKindnet cluster.Shoot.Spec.Kubernetes.Version with
  | .error err => { err := some err, calls := [findImage], state := s }
  | .ok image =>
    let serialize := Call.AddAllAndSerialize (objects env network (env.ImageString image))
    match env.AddAllAndSerialize (objects env network (env.ImageString image)) with
    | .error err => { err := some err, calls := [findImage, serialize], state := s }
    | .ok data =>
      let r := env.CreateForShoot s network.Namespace managedResourceName true data
      { err := r.1,
        calls := [findImage, serialize,
          Call.CreateForShoot network.Namespace managedResourceName true data],
        state := r.2 }

/-- The method `(*actuator).Delete`, run in state `s`; the cluster argument is
ignored, as in the source. -/
def Delete (env : Env ε ι δ ω) (network : Network) (_ : Cluster) (s : ω) : Result ε δ ω :=
  let r := env.DeleteForShoot s network.Namespace managedResourceName
  { err := r.1,
    calls := [Call.DeleteForShoot network.Namespace managedResourceName],
    state := r.2 }

/-- The method `(*actuator).Migrate`. -/
def Migrate (env : Env ε ι δ ω) (network : Network) (cluster : Cluster) (s : ω) :
    Result ε δ ω :=
  Delete env network cluster s

/-- The method `(*actuator).Restore`. -/
def Restore (env : Env ε ι δ ω) (network : Network) (cluster : Cluster) (s : ω) :
    Result ε δ ω :=
  Reconcile env network cluster s

/-! ### A concrete environment

An image vector with one entry per known Kubernetes version, a serializer that
refuses an empty pod subnet, and an applier that keeps the set of applied
bundles and rejects any change in a namespace listed as frozen. -/

/-- State of the example applier: frozen namespaces and the bundles present,
keyed by handle. -/
structure ExampleState where
  frozen : List String
  present : List ((String × String) × List k8s.Object)
deriving DecidableEq, Repr

/-- Whether some `POD_SUBNET` variable of some container of a daemon set is empty. -/
def hasEmptyPodSubnet : k8s.Object → Bool
  | .DaemonSet d =>
    d.Spec.Template.Spec.Containers.any fun c =>
      c.Env.any fun e => e.Name == "POD_SUBNET" && e.Value == "" && e.ValueFrom == none
  | _ => false

/-- The example environment. -/
def exampleEnv : Env String (String × String) (List k8s.Object) ExampleState where
  ImageNameKindnet := "kindnet"
  DeleteOnInvalidUpdate := "resources.gardener.cloud/delete-on-invalid-update"
  FindImage := fun name version =>
    if name == "kindnet" && (version == "1.21.0" || version == "1.22.1") then
      .ok ("docker.io/kindest/kindnetd", "v20210326-1e038dc5")
    else
      .error ("could not find image " ++ name ++ " for version " ++ version)
  ImageString := fun i => i.1 ++ ":" ++ i.2
  AddAllAndSerialize := fun os =>
    if os.any hasEmptyPodSubnet then .error "pod subnet must not be empty" else .ok os
  CreateForShoot := fun s ns name _ data =>
    if s.frozen.contains ns then (some ("namespace " ++ ns ++ " is frozen"), s)
    else (none, { s with present := ((ns, name), data) :: s.present.filter (fun p => p.1 != (ns, name)) })
  DeleteForShoot := fun s ns name =>
    if s.frozen.contains ns then (some ("namespace " ++ ns ++ " is frozen"), s)
    else (none, { s with present := s.present.filter (fun p => p.1 != (ns, name)) })

/-- A network in namespace `shoot--dev--example`. -/
def exampleNetwork : Network :=
  { ObjectMeta := { Name := "example", Namespace := "shoot--dev--example" },
    Spec := { PodCIDR := "10.1.0.0/16", ServiceCIDR := "10.2.0.0/16" } }

/-- A network in a namespace that the example state lists as frozen. -/
def frozenNetwork : Network :=
  { ObjectMeta := { Name := "frozen", Namespace := "shoot--dev--frozen" },
    Spec := { PodCIDR := "10.3.0.0/16", ServiceCIDR := "10.4.0.0/16" } }

/-- A network without a pod subnet, which the example serializer refuses. -/
def emptySubnetNetwork : Network :=
  { ObjectMeta := { Name := "nosubnet", Namespace := "shoot--dev--nosubnet" },
    Spec := { PodCIDR := "", ServiceCIDR := "10.2.0.0/16" } }

/-- A cluster context with a Kubernetes version known to the example image vector. -/
def exampleCluster : Cluster :=
  { Shoot := { Spec := { Kubernetes := { Version := "1.21.0" } } } }

/-- A cluster context with a Kubernetes version unknown to the example image vector. -/
def unknownCluster : Cluster :=
  { Shoot := { Spec := { Kubernetes := { Version := "0.9.0" } } } }

/-- A state in which nothing is applied and one namespace is frozen. -/
def exampleState : ExampleState :=
  { frozen := ["shoot--dev--frozen"], present := [] }

end network

/-! ## Object identities and input-dependent fields of the rendered bundle -/

namespace k8s

/-- The kind under which the scheme registers the Go type of an object. -/
def Object.kind : Object → String
  | .ServiceAccount _ => "ServiceAccount"
  | .ClusterRole _ => "ClusterRole"
  | .ClusterRoleBinding _ => "ClusterRoleBinding"
  | .DaemonSet _ => "DaemonSet"

/-- The embedded `ObjectMeta` of an object. -/
def Object.meta : Object → ObjectMeta
  | .ServiceAccount o => o.ObjectMeta
  | .ClusterRole o => o.ObjectMeta
  | .ClusterRoleBinding o => o.ObjectMeta
  | .DaemonSet o => o.ObjectMeta

/-- The identity (kind, namespace, name) of an object. -/
def Object.identity (o : Object) : String × String × String :=
  (o.kind, o.meta.Namespace, o.meta.Name)

/-- The environment variable `e`, its value replaced by `subnet` if it is the
variable `POD_SUBNET`. -/
def EnvVar.withPodSubnet (subnet : String) (e : EnvVar) : EnvVar :=
  if e.Name = "POD_SUBNET" then { e with Value := subnet } else e

/-- The container `c` with its image replaced by `image` and the value of its
`POD_SUBNET` variable replaced by `subnet`; every other field is kept. -/
def Container.withImageAndPodSubnet (image subnet : String) (c : Container) : Container :=
  { c with Image := image, Env := c.Env.map (EnvVar.withPodSubnet subnet) }

/-- The daemon set `d` with, in every container of its pod template, the image
replaced by `image` and the value of `POD_SUBNET` replaced by `subnet`; every
other field is kept. -/
def DaemonSet.withImageAndPodSubnet (image subnet : String) (d : DaemonSet) : DaemonSet :=
  let pod : PodSpec :=
    { d.Spec.Template.Spec with
      Containers := d.Spec.Template.Spec.Containers.map
        (Container.withImageAndPodSubnet image subnet) }
  let template : PodTemplateSpec := { d.Spec.Template with Spec := pod }
  let spec : DaemonSetSpec := { d.Spec with Template := template }
  { d with Spec := spec }

end k8s

namespace network

variable {ε ι δ ω : Type}

/-- The argument lists of the serialization calls of a result, in order. -/
def Result.serialized (r : Result ε δ ω) : List (List k8s.Object) :=
  r.calls.filterMap fun c =>
    match c with
    | .AddAllAndSerialize os => some os
    | _ => none

/-- A second network with the pod subnet of `exampleNetwork` and everything
else different. -/
def otherNetwork : Network :=
  { ObjectMeta :=
      { Name := "other",
        Namespace := "shoot--prod--other",
        Labels := [("purpose", "production")] },
    Spec := { PodCIDR := "10.1.0.0/16", ServiceCIDR := "10.9.0.0/16" } }

end network

/-! ## `backupentry`: names of backup entries

A Go string is kept as the list of its characters.  The operations used here
compare with the ASCII constants `source-` and `--` only, so on a well-formed
UTF-8 string they act on characters as they act on bytes. -/

namespace backupentry

/-- The function `strings.HasPrefix(s, pre)`. -/
def HasPrefix (s pre : List Char) : Bool := pre.isPrefixOf s

/-- The function `strings.TrimPrefix(s, pre)`. -/
def TrimPrefix (s pre : List Char) : List Char :=
  if HasPrefix s pre then s.drop pre.length else s

/-- The function `strings.HasSuffix(s, suffix)`. -/
def HasSuffix (s suffix : List Char) : Bool := suffix.isSuffixOf s

/-- The function `strings.TrimSuffix(s, suffix)`. -/
def TrimSuffix (s suffix : List Char) : List Char :=
  if HasSuffix s suffix then s.take (s.length - suffix.length) else s

/-- The loop of `strings.Split(s, sep)` for a non-empty `sep`: `token` holds, in
reverse, the characters read since the last separator, and `skip` counts the
characters of a separator just found that are still to be passed over. -/
def splitLoop (sep : List Char) : List Char → Nat → List Char → List (List Char)
  | [], _, token => [token.reverse]
  | _ :: cs, skip + 1, token => splitLoop sep cs skip token
  | c :: cs, 0, token =>
    if sep.isPrefixOf (c :: cs) then
      token.reverse :: splitLoop sep cs (sep.length - 1) []
    else
      splitLoop sep cs 0 (c :: token)

/-- The function `strings.Split(s, sep)` for a non-empty `sep`: the pieces of
`s` between the occurrences of `sep`, found from left to right without
overlap. -/
def Split (s sep : List Char) : List (List Char) := splitLoop sep s 0 []

/-- The constant `SourcePrefix`. -/
def SourcePrefix : List Char := "source".toList

/-- The function `ExtractShootDetailsFromBackupEntryName`; the result is
`(shootTechnicalID, shootUID)`, and `none` stands for the run-time panic of an
index out of range at `tokens[len(tokens)-1]`. -/
def ExtractShootDetailsFromBackupEntryName (backupEntryName : List Char) :
    Option (List Char × List Char) :=
  let backupEntryName := TrimPrefix backupEntryName (SourcePrefix ++ "-".toList)
  let tokens := Split backupEntryName "--".toList
  match tokens[tokens.length - 1]? with
  | none => none
  | some shootUID =>
    let shootTechnicalID := TrimSuffix backupEntryName ("--".toList ++ shootUID)
    some (shootTechnicalID, shootUID)

/-- The naming scheme of a backup entry: `<technicalID>--<uid>`. -/
def backupEntryName (technicalID uid : List Char) : List Char :=
  technicalID ++ "--".toList ++ uid

/-- The naming scheme of a source backup entry: `source-<technicalID>--<uid>`. -/
def sourceBackupEntryName (technicalID uid : List Char) : List Char :=
  SourcePrefix ++ "-".toList ++ backupEntryName technicalID uid

end backupentry

/-! ## `cmd/utils`: the leader election configuration -/

namespace utils

/-- The fields of `componentbaseconfig.LeaderElectionConfiguration`; a duration
(`metav1.Duration`, an `int64` count of nanoseconds) is an integer. -/
structure LeaderElectionConfiguration where
  LeaderElect : Bool := false
  LeaseDuration : Int := 0
  RenewDeadline : Int := 0
  RetryPeriod : Int := 0
  ResourceLock : String := ""
  ResourceName : String := ""
  ResourceNamespace : String := ""
deriving DecidableEq, Repr

/-- What `MakeLeaderElectionConfig` uses of the client `k8s.Interface`: the
results of `client.CoreV1()` and of `client.CoordinationV1()`. -/
structure Interface (α β : Type) where
  CoreV1 : α
  CoordinationV1 : β
deriving DecidableEq, Repr

/-- The fields of `resourcelock.ResourceLockConfig` set by the source. -/
structure ResourceLockConfig (ρ : Type) where
  Identity : String
  EventRecorder : ρ
deriving DecidableEq, Repr

/-- The fields of `leaderelection.LeaderElectionConfig` set by the source. -/
structure LeaderElectionConfig (κ : Type) where
  Lock : κ
  LeaseDuration : Int
  RenewDeadline : Int
  RetryPeriod : Int
deriving DecidableEq, Repr

/-- The error built by `fmt.Errorf` with a format `<text>: %w`: its message is
the text, a colon, a blank and the message of the wrapped error, and
unwrapping it gives the wrapped error `err`. -/
structure WrapError (ε : Type) where
  msg : String
  err : ε
deriving DecidableEq, Repr

/-- What `MakeLeaderElectionConfig` uses and does not define itself.  `ε` is
the type of non-nil `error` values and `κ` the type of resource locks. -/
structure Env (ε α β ρ κ : Type) where
  /-- The call `os.Hostname()`. -/
  Hostname : Except ε String
  /-- The method `err.Error()`. -/
  Error : ε → String
  /-- The call `resourcelock.New(lockType, ns, name, coreClient, coordinationClient, rlc)`. -/
  New : String → String → String → α → β → ResourceLockConfig ρ → Except ε κ

/-- A call that `MakeLeaderElectionConfig` makes, with its arguments. -/
inductive Call (α β ρ : Type) where
  | Hostname
  | New (lockType ns name : String) (coreClient : α) (coordinationClient : β)
      (rlc : ResourceLockConfig ρ)
deriving DecidableEq, Repr

/-- What `MakeLeaderElectionConfig` does: the returned pointer (`none` is nil),
the returned `error` (`none` is nil) and the calls made, in order. -/
structure Result (ε α β ρ κ : Type) where
  config : Option (LeaderElectionConfig κ)
  err : Option (WrapError ε)
  calls : List (Call α β ρ)
deriving DecidableEq, Repr

variable {ε α β ρ κ : Type}

/-- The function `MakeLeaderElectionConfig`. -/
def MakeLeaderElectionConfig (env : Env ε α β ρ κ) (cfg : LeaderElectionConfiguration)
    (client : Interface α β) (recorder : ρ) : Result ε α β ρ κ :=
  match env.Hostname with
  | .error err =>
    { config := none,
      err := some { msg := "unable to get hostname: " ++ env.Error err, err := err },
      calls := [Call.Hostname] }
  | .ok hostname =>
    let rlc : ResourceLockConfig ρ := { Identity := hostname, EventRecorder := recorder }
    let newCall : Call α β ρ :=
      Call.New cfg.ResourceLock cfg.ResourceNamespace cfg.ResourceName
        client.CoreV1 client.CoordinationV1 rlc
    match env.New cfg.ResourceLock cfg.ResourceNamespace cfg.ResourceName
        client.CoreV1 client.CoordinationV1 rlc with
    | .error err =>
      { config := none,
        err := some { msg := "couldn't create resource lock: " ++ env.Error err, err := err },
        calls := [Call.Hostname, newCall] }
    | .ok lock =>
      { config := some
          { Lock := lock,
            LeaseDuration := cfg.LeaseDuration,
            RenewDeadline := cfg.RenewDeadline,
            RetryPeriod := cfg.RetryPeriod },
        err := none,
        calls := [Call.Hostname, newCall] }

/-! ### A concrete environment -/

/-- A resource lock of the example environment: what it was built from. -/
structure ExampleLock where
  lockType : String
  ns : String
  name : String
  identity : String
deriving DecidableEq, Repr

/-- An environment on a host with the given name (or without one) whose lock
constructor knows three lock types. -/
def exampleEnv (hostname : Except String String) : Env String Unit Unit Unit ExampleLock where
  Hostname := hostname
  Error := fun e => e
  New := fun lockType ns name _ _ rlc =>
    if lockType == "leases" || lockType == "endpointsleases" || lockType == "configmapsleases" then
      .ok { lockType := lockType, ns := ns, name := name, identity := rlc.Identity }
    else
      .error "invalid lock-type"

/-- A configuration whose durations violate `RetryPeriod < RenewDeadline <
LeaseDuration` (in nanoseconds: 10 s, 5 s, 1 s). -/
def disorderedConfiguration : LeaderElectionConfiguration :=
  { LeaderElect := true,
    LeaseDuration := 1000000000,
    RenewDeadline := 5000000000,
    RetryPeriod := 10000000000,
    ResourceLock := "leases",
    ResourceName := "gardener-controller-manager-leader-election",
    ResourceNamespace := "garden" }

end utils

/-! ## `imports/v1alpha1`: defaults of the control plane imports

The structures list the fields that `SetDefaults_Imports` reads or writes; a
pointer field is an `Option`. -/

namespace imports

/-- The type `SeedRestriction`. -/
structure SeedRestriction where
  Enabled : Bool := false
deriving DecidableEq, Repr

/-- The type of `Rbac.SeedAuthorizer`; `Enabled` is a `*bool`. -/
structure SeedAuthorizer where
  Enabled : Option Bool := none
deriving DecidableEq, Repr

/-- The type `Rbac`. -/
structure Rbac where
  SeedAuthorizer : Option SeedAuthorizer := none
deriving DecidableEq, Repr

/-- The type `GardenerAdmissionController`. -/
structure GardenerAdmissionController where
  Enabled : Bool := false
  SeedRestriction : Option SeedRestriction := none
deriving DecidableEq, Repr

/-- The type `ControllerManagerComponentConfiguration`, of which the source
only builds the zero value. -/
structure ControllerManagerComponentConfiguration where
deriving DecidableEq, Repr

/-- The type `GardenerControllerManager`. -/
structure GardenerControllerManager where
  ComponentConfiguration : Option ControllerManagerComponentConfiguration := none
deriving DecidableEq, Repr

/-- The type of the field `TokenProjection` of a webhook's credentials. -/
structure TokenProjection where
  Enabled : Bool := false
deriving DecidableEq, Repr

/-- The type `landscaperv1alpha1.Target`, reduced to
`Spec.Configuration.RawMessage`. -/
structure Target where
  RawMessage : String := ""
deriving DecidableEq, Repr

/-- The type of the fields `MutatingWebhook` and `ValidatingWebhook`. -/
structure WebhookCredentials where
  Kubeconfig : Option Target := none
  TokenProjection : Option TokenProjection := none
deriving DecidableEq, Repr

/-- The type of the field `Admission`. -/
structure Admission where
  MutatingWebhook : Option WebhookCredentials := none
  ValidatingWebhook : Option WebhookCredentials := none
deriving DecidableEq, Repr

/-- The type of `GardenerAPIServer.ComponentConfiguration`, a value that the
source reads without a nil check. -/
structure APIServerComponentConfiguration where
  Admission : Option Admission := none
deriving DecidableEq, Repr

/-- The type `GardenerAPIServer`, a value that the source reads without a nil
check. -/
structure GardenerAPIServer where
  ComponentConfiguration : APIServerComponentConfiguration := {}
deriving DecidableEq, Repr

/-- The type `Imports`. -/
structure Imports where
  Rbac : Option Rbac := none
  GardenerAPIServer : GardenerAPIServer := {}
  GardenerControllerManager : Option GardenerControllerManager := none
  GardenerAdmissionController : Option GardenerAdmissionController := none
deriving DecidableEq, Repr

/-- The function `getVolumeProjectionKubeconfig`. -/
def getVolumeProjectionKubeconfig (name : String) : String :=
  "\n---\napiVersion: v1\nkind: Config\nusers:\n- name: \x27*\x27\nuser:\n  tokenFile: /var/run/secrets/admission-tokens/"
    ++ name ++ "-webhook-token"

/-- The test and assignment that `SetDefaults_Imports` applies to
`MutatingWebhook` with the name `mutating` and to `ValidatingWebhook` with the
name `validating`: a webhook that is set, with a token projection that is set
and enabled and with no kubeconfig, receives the projected kubeconfig. -/
def defaultKubeconfig (name : String) : Option WebhookCredentials → Option WebhookCredentials
  | none => none
  | some webhook =>
    match webhook.TokenProjection with
    | none => some webhook
    | some tokenProjection =>
      if tokenProjection.Enabled && webhook.Kubeconfig == none then
        some { webhook with
          Kubeconfig := some { RawMessage := getVolumeProjectionKubeconfig name } }
      else
        some webhook

/-- The assignment `obj.GardenerAPIServer.ComponentConfiguration.Admission = &admission`. -/
def Imports.setAdmission (obj : Imports) (admission : Admission) : Imports :=
  let componentConfiguration : APIServerComponentConfiguration :=
    { obj.GardenerAPIServer.ComponentConfiguration with Admission := some admission }
  let apiServer : imports.GardenerAPIServer :=
    { obj.GardenerAPIServer with ComponentConfiguration := componentConfiguration }
  { obj with GardenerAPIServer := apiServer }

/-- The function `SetDefaults_Imports`; the mutated object is returned. -/
def SetDefaults_Imports (obj : Imports) : Imports :=
  let obj : Imports :=
    match obj.Rbac, obj.GardenerAdmissionController with
    | some rbac, some admissionController =>
      match rbac.SeedAuthorizer with
      | some seedAuthorizer =>
        if seedAuthorizer.Enabled == some true
            && admissionController.Enabled
            && admissionController.SeedRestriction == none then
          let restricted : GardenerAdmissionController :=
            { admissionController with SeedRestriction := some { Enabled := true } }
          { obj with GardenerAdmissionController := some restricted }
        else
          obj
      | none => obj
    | _, _ => obj
  -- initialise empty as we anyways need to generate certificates
  let obj : Imports :=
    if obj.GardenerControllerManager == none then
      { obj with GardenerControllerManager := some { ComponentConfiguration := some {} } }
    else
      obj
  -- initialise empty as we anyways need to generate certificates
  let obj : Imports :=
    if obj.GardenerAdmissionController == none then
      { obj with GardenerAdmissionController := some {} }
    else
      obj
  let obj : Imports :=
    match obj.GardenerAPIServer.ComponentConfiguration.Admission with
    | none => obj
    | some admission =>
      obj.setAdmission
        { admission with
          MutatingWebhook := defaultKubeconfig "mutating" admission.MutatingWebhook }
  match obj.GardenerAPIServer.ComponentConfiguration.Admission with
  | none => obj
  | some admission =>
    obj.setAdmission
      { admission with
        ValidatingWebhook := defaultKubeconfig "validating" admission.ValidatingWebhook }

/-- The seed restriction of the admission controller of `obj`, if both are set. -/
def seedRestrictionOf (obj : Imports) : Option SeedRestriction :=
  match obj.GardenerAdmissionController with
  | none => none
  | some admissionController => admissionController.SeedRestriction

/-- The condition in the words of the specification: on entry
`Rbac.SeedAuthorizer.Enabled` is set and true, `GardenerAdmissionController` is
set with `Enabled = true`, and its `SeedRestriction` is unset. -/
def seedRestrictionDue (obj : Imports) : Prop :=
  (∃ rbac seedAuthorizer, obj.Rbac = some rbac ∧ rbac.SeedAuthorizer = some seedAuthorizer ∧
      seedAuthorizer.Enabled = some true) ∧
  (∃ admissionController, obj.GardenerAdmissionController = some admissionController ∧
      admissionController.Enabled = true ∧ admissionController.SeedRestriction = none)

/-- Imports with the seed authorizer enabled and an enabled admission controller
whose seed restriction is as given. -/
def exampleImports (seedRestriction : Option SeedRestriction) : Imports :=
  { Rbac := some { SeedAuthorizer := some { Enabled := some true } },
    GardenerAdmissionController :=
      some { Enabled := true, SeedRestriction := seedRestriction } }

end imports

end Gardener

/-! # Properties -/

namespace Gardener

/-! ## Machine integers -/

/-- Inside the `int64` range and below its maximum, Go's `g + 1` is the
mathematical successor. -/
theorem addInt64_one_of_lt (g : Int) (hlo : minInt64 ≤ g) (hhi : g < maxInt64) :
    addInt64 g 1 = g + 1 := by
  unfold addInt64 wrapInt64
  unfold minInt64 at hlo
  unfold maxInt64 at hhi
  omega

/-- Go's `g + 1` never equals `g`. -/
theorem addInt64_one_ne (g : Int) : addInt64 g 1 ≠ g := by
  unfold addInt64 wrapInt64
  omega

namespace shootextensionstatus

variable {σ : Type}

/-! ## Generation tracking -/

/-- The source's test `mustIncreaseGeneration` is the specification's bump
condition. -/
theorem mustIncreaseGeneration_iff (DeepEqual : σ → σ → Bool)
    (old new : ShootExtensionStatus σ) :
    mustIncreaseGeneration DeepEqual old new = true ↔
      generationBumpCondition DeepEqual old new := by
  unfold mustIncreaseGeneration generationBumpCondition
  cases hs : DeepEqual old.Statuses new.Statuses <;>
    cases ho : old.DeletionTimestamp <;>
    cases hn : new.DeletionTimestamp <;> simp

/-- When the bump condition holds the generation written is `old.Generation + 1`. -/
theorem PrepareForUpdate_of_bump (DeepEqual : σ → σ → Bool)
    (old new : ShootExtensionStatus σ) (h : generationBumpCondition DeepEqual old new) :
    PrepareForUpdate DeepEqual new old = new.setGeneration (addInt64 old.Generation 1) := by
  have hm := (mustIncreaseGeneration_iff DeepEqual old new).2 h
  simp [PrepareForUpdate, hm]

/-- When the bump condition fails the submitted object is returned as it came. -/
theorem PrepareForUpdate_of_not_bump (DeepEqual : σ → σ → Bool)
    (old new : ShootExtensionStatus σ) (h : ¬ generationBumpCondition DeepEqual old new) :
    PrepareForUpdate DeepEqual new old = new := by
  have hm : mustIncreaseGeneration DeepEqual old new = false := by
    cases hb : mustIncreaseGeneration DeepEqual old new
    · rfl
    · exact absurd ((mustIncreaseGeneration_iff DeepEqual old new).1 hb) h
  simp [PrepareForUpdate, hm]

/-- One update step of `stored`. -/
theorem stored_succ (DeepEqual : σ → σ → Bool) (created : ShootExtensionStatus σ)
    (updates : List (ShootExtensionStatus σ)) (i : Nat) (h : i < updates.length) :
    stored DeepEqual created updates (i + 1) =
      PrepareForUpdate DeepEqual updates[i] (stored DeepEqual created updates i) := by
  unfold stored
  rw [List.take_succ, List.getElem?_eq_getElem h, List.foldl_append]
  rfl

/-- Along a history in which every submitted object carries the stored
generation, the generation after `i` updates lies between `1` and `i + 1`. -/
theorem stored_generation_bounds (DeepEqual : σ → σ → Bool)
    (created : ShootExtensionStatus σ) (updates : List (ShootExtensionStatus σ))
    (hlen : (updates.length : Int) < maxInt64)
    (hcarry : ∀ (j : Nat) (hj : j < updates.length),
      updates[j].Generation = (stored DeepEqual created updates j).Generation)
    (i : Nat) (hi : i ≤ updates.length) :
    1 ≤ (stored DeepEqual created updates i).Generation ∧
      (stored DeepEqual created updates i).Generation ≤ (i : Int) + 1 := by
  induction i with
  | zero =>
    simp [stored, PrepareForCreate, ShootExtensionStatus.setGeneration,
      ShootExtensionStatus.Generation]
  | succ k ih =>
    have hk : k < updates.length := hi
    obtain ⟨h1, h2⟩ := ih (Nat.le_of_lt hk)
    rw [stored_succ DeepEqual created updates k hk]
    by_cases hb : generationBumpCondition DeepEqual (stored DeepEqual created updates k) updates[k]
    · rw [PrepareForUpdate_of_bump DeepEqual _ _ hb]
      have hadd : addInt64 (stored DeepEqual created updates k).Generation 1 =
          (stored DeepEqual created updates k).Generation + 1 := by
        apply addInt64_one_of_lt
        · unfold minInt64; omega
        · have : (k : Int) < (updates.length : Int) := by exact_mod_cast hk
          omega
      simp only [ShootExtensionStatus.setGeneration, ShootExtensionStatus.Generation] at hadd ⊢
      rw [hadd]
      simp only [ShootExtensionStatus.Generation] at h1 h2
      push_cast
      omega
    · rw [PrepareForUpdate_of_not_bump DeepEqual _ _ hb, hcarry k hk]
      push_cast
      omega

/-! ## Claims on generation tracking -/

/-- C1 (as amended): `PrepareForUpdate(new, old)` leaves `new.Generation` equal
to `old.Generation + 1` (Go `int64` addition) whenever (a) the sub-statuses
differ under semantic deep comparison or (b) a deletion timestamp is newly
set; in every other case it leaves `new.Generation` at the value the submitted
object carried.  Hence, for a submitted object whose generation is not already
`old.Generation + 1`, in particular for one that carries `old.Generation`, the
equation `new.Generation = old.Generation + 1` holds after the call if and only
if (a) or (b). -/
theorem PrepareForUpdate_generation_rule (DeepEqual : σ → σ → Bool)
    (old new : ShootExtensionStatus σ) :
    (generationBumpCondition DeepEqual old new →
      (PrepareForUpdate DeepEqual new old).Generation = addInt64 old.Generation 1) ∧
    (¬ generationBumpCondition DeepEqual old new →
      (PrepareForUpdate DeepEqual new old).Generation = new.Generation) ∧
    (new.Generation ≠ addInt64 old.Generation 1 →
      ((PrepareForUpdate DeepEqual new old).Generation = addInt64 old.Generation 1 ↔
        generationBumpCondition DeepEqual old new)) ∧
    (new.Generation = old.Generation →
      ((PrepareForUpdate DeepEqual new old).Generation = addInt64 old.Generation 1 ↔
        generationBumpCondition DeepEqual old new)) := by
  have hbump : generationBumpCondition DeepEqual old new →
      (PrepareForUpdate DeepEqual new old).Generation = addInt64 old.Generation 1 := by
    intro h
    rw [PrepareForUpdate_of_bump DeepEqual old new h]
    rfl
  have hiff : new.Generation ≠ addInt64 old.Generation 1 →
      ((PrepareForUpdate DeepEqual new old).Generation = addInt64 old.Generation 1 ↔
        generationBumpCondition DeepEqual old new) := by
    intro hne
    refine ⟨fun hg => ?_, hbump⟩
    by_contra hnb
    rw [PrepareForUpdate_of_not_bump DeepEqual old new hnb] at hg
    exact hne hg
  refine ⟨hbump, fun h => ?_, hiff, fun heq => hiff ?_⟩
  · rw [PrepareForUpdate_of_not_bump DeepEqual old new h]
  · rw [heq]
    exact fun h => addInt64_one_ne old.Generation h.symm

/-- C1, instances of the amended rule: a changed sub-status takes generation 1
to 2; an unchanged record submitted with generation 7 keeps 7; and for a
submitted generation 1 or 5 against a stored generation 1 the equivalence
holds. -/
theorem PrepareForUpdate_generation_rule_witness :
    (PrepareForUpdate sliceDeepEqual (mkRecord 1 none [("a", "y")])
        (mkRecord 1 none [("a", "x")])).Generation = 2 ∧
    (PrepareForUpdate sliceDeepEqual (mkRecord 7 none [("a", "x")])
        (mkRecord 1 none [("a", "x")])).Generation = 7 ∧
    ((PrepareForUpdate sliceDeepEqual (mkRecord 1 (some 5) [("a", "x")])
        (mkRecord 1 none [("a", "x")])).Generation = 2 ↔
      generationBumpCondition sliceDeepEqual (mkRecord 1 none [("a", "x")])
        (mkRecord 1 (some 5) [("a", "x")])) ∧
    ((PrepareForUpdate sliceDeepEqual (mkRecord 5 none [("a", "x")])
        (mkRecord 1 none [("a", "x")])).Generation = 2 ↔
      generationBumpCondition sliceDeepEqual (mkRecord 1 none [("a", "x")])
        (mkRecord 5 none [("a", "x")])) :=
  ⟨(PrepareForUpdate_generation_rule sliceDeepEqual (mkRecord 1 none [("a", "x")])
      (mkRecord 1 none [("a", "y")])).1 (by decide),
   (PrepareForUpdate_generation_rule sliceDeepEqual (mkRecord 1 none [("a", "x")])
      (mkRecord 7 none [("a", "x")])).2.1 (by decide),
   (PrepareForUpdate_generation_rule sliceDeepEqual (mkRecord 1 none [("a", "x")])
      (mkRecord 1 (some 5) [("a", "x")])).2.2.2 (by decide),
   (PrepareForUpdate_generation_rule sliceDeepEqual (mkRecord 1 none [("a", "x")])
      (mkRecord 5 none [("a", "x")])).2.2.1 (by decide)⟩

/-- C1, counterexample to the claim as stated: with old generation 1 and a
submitted object that already carries generation 2, equal sub-statuses and no
deletion timestamps, `new.Generation = old.Generation + 1` holds after
`PrepareForUpdate` although neither (a) nor (b) does. -/
theorem PrepareForUpdate_generation_iff_fails :
    (PrepareForUpdate sliceDeepEqual (mkRecord 2 none [("a", "x")])
        (mkRecord 1 none [("a", "x")])).Generation
      = (mkRecord 1 none [("a", "x")]).Generation + 1 ∧
    ¬ (sliceDeepEqual (mkRecord 1 none [("a", "x")]).Statuses
          (mkRecord 2 none [("a", "x")]).Statuses = false ∨
        ((mkRecord 1 none [("a", "x")]).DeletionTimestamp = none ∧
          (mkRecord 2 none [("a", "x")]).DeletionTimestamp ≠ none)) := by
  decide

/-- C2 (as amended): let `r 0` be the result of `PrepareForCreate` and
`r (i+1)` the result of `PrepareForUpdate` on the `i`-th submitted object with
`old = r i`.  If every submitted object carries the generation of the record
it updates, and there are fewer than `2^63 - 1` updates, then at every step
the generation does not decrease, it increases exactly when the sub-statuses
changed or a deletion timestamp was newly set, and it is equal across every
other step. -/
theorem generation_monotone (DeepEqual : σ → σ → Bool)
    (created : ShootExtensionStatus σ) (updates : List (ShootExtensionStatus σ))
    (hlen : (updates.length : Int) < maxInt64)
    (hcarry : ∀ (j : Nat) (hj : j < updates.length),
      updates[j].Generation = (stored DeepEqual created updates j).Generation)
    (i : Nat) (hi : i < updates.length) :
    (stored DeepEqual created updates i).Generation
        ≤ (stored DeepEqual created updates (i + 1)).Generation ∧
    ((stored DeepEqual created updates i).Generation
        < (stored DeepEqual created updates (i + 1)).Generation ↔
      generationBumpCondition DeepEqual (stored DeepEqual created updates i) updates[i]) ∧
    (¬ generationBumpCondition DeepEqual (stored DeepEqual created updates i) updates[i] →
      (stored DeepEqual created updates (i + 1)).Generation
        = (stored DeepEqual created updates i).Generation) := by
  obtain ⟨h1, h2⟩ :=
    stored_generation_bounds DeepEqual created updates hlen hcarry i (Nat.le_of_lt hi)
  have hadd : addInt64 (stored DeepEqual created updates i).Generation 1 =
      (stored DeepEqual created updates i).Generation + 1 := by
    apply addInt64_one_of_lt
    · unfold minInt64; omega
    · have : (i : Int) < (updates.length : Int) := by exact_mod_cast hi
      omega
  rw [stored_succ DeepEqual created updates i hi]
  by_cases hb : generationBumpCondition DeepEqual (stored DeepEqual created updates i) updates[i]
  · rw [PrepareForUpdate_of_bump DeepEqual _ _ hb]
    have hg : ((updates[i]).setGeneration
        (addInt64 (stored DeepEqual created updates i).Generation 1)).Generation =
        (stored DeepEqual created updates i).Generation + 1 := by
      rw [← hadd]; rfl
    rw [hg]
    refine ⟨by omega, ⟨fun _ => hb, fun _ => by omega⟩, fun hnb => absurd hb hnb⟩
  · rw [PrepareForUpdate_of_not_bump DeepEqual _ _ hb, hcarry i hi]
    refine ⟨le_refl _, ⟨fun hlt => absurd hlt (lt_irrefl _), fun h => absurd h hb⟩, fun _ => rfl⟩

/-- C2, an instance: in the example history the generations are 1, 2, 2, 3; the
first update (a changed sub-status) satisfies the three statements. -/
theorem generation_monotone_witness :
    (stored sliceDeepEqual (mkRecord 0 none [("a", "x")]) exampleUpdates 0).Generation
        ≤ (stored sliceDeepEqual (mkRecord 0 none [("a", "x")]) exampleUpdates 1).Generation ∧
    ((stored sliceDeepEqual (mkRecord 0 none [("a", "x")]) exampleUpdates 0).Generation
        < (stored sliceDeepEqual (mkRecord 0 none [("a", "x")]) exampleUpdates 1).Generation ↔
      generationBumpCondition sliceDeepEqual
        (stored sliceDeepEqual (mkRecord 0 none [("a", "x")]) exampleUpdates 0)
        (mkRecord 1 none [("a", "y")])) ∧
    (¬ generationBumpCondition sliceDeepEqual
        (stored sliceDeepEqual (mkRecord 0 none [("a", "x")]) exampleUpdates 0)
        (mkRecord 1 none [("a", "y")]) →
      (stored sliceDeepEqual (mkRecord 0 none [("a", "x")]) exampleUpdates 1).Generation
        = (stored sliceDeepEqual (mkRecord 0 none [("a", "x")]) exampleUpdates 0).Generation) :=
  generation_monotone sliceDeepEqual (mkRecord 0 none [("a", "x")]) exampleUpdates
    (by decide) (by decide) 0 (by decide)

/-- C2, counterexample to the claim as stated: a record is created (generation
1) and then updated with a submitted object that carries generation 0 and the
same sub-statuses; the stored generation drops from 1 to 0. -/
theorem generation_monotone_fails :
    (stored sliceDeepEqual (mkRecord 0 none [("a", "x")])
        [mkRecord 0 none [("a", "x")]] 1).Generation
      < (stored sliceDeepEqual (mkRecord 0 none [("a", "x")])
        [mkRecord 0 none [("a", "x")]] 0).Generation := by
  decide

/-- C3: whenever the sub-statuses of `old` and `new` are not semantically
deep-equal, or `old` has no deletion timestamp and `new` has one,
`PrepareForUpdate` sets `new.Generation` to `old.Generation + 1` (Go `int64`
addition), whatever generation `new` carried; for `old.Generation` in the
`int64` range below its maximum this is the mathematical successor. -/
theorem PrepareForUpdate_bumps (DeepEqual : σ → σ → Bool)
    (old new : ShootExtensionStatus σ)
    (h : DeepEqual old.Statuses new.Statuses = false ∨
      (old.DeletionTimestamp = none ∧ new.DeletionTimestamp ≠ none)) :
    (PrepareForUpdate DeepEqual new old).Generation = addInt64 old.Generation 1 ∧
    (minInt64 ≤ old.Generation → old.Generation < maxInt64 →
      (PrepareForUpdate DeepEqual new old).Generation = old.Generation + 1) := by
  have hg : (PrepareForUpdate DeepEqual new old).Generation = addInt64 old.Generation 1 := by
    rw [PrepareForUpdate_of_bump DeepEqual old new h]
    rfl
  exact ⟨hg, fun hlo hhi => by rw [hg, addInt64_one_of_lt _ hlo hhi]⟩

/-- C3, the scenario of the specification: from `{Generation: 1, Statuses: a=x}`
to `{Statuses: a=y}` (submitted generation 0) the result has generation 2. -/
theorem PrepareForUpdate_bumps_witness :
    (PrepareForUpdate sliceDeepEqual (mkRecord 0 none [("a", "y")])
      (mkRecord 1 none [("a", "x")])).Generation = 2 :=
  ((PrepareForUpdate_bumps sliceDeepEqual (mkRecord 1 none [("a", "x")])
    (mkRecord 0 none [("a", "y")]) (by decide)).2 (by decide) (by decide))

/-- C4: when the sub-statuses of `old` and `new` are semantically deep-equal and
it is not the case that `old` has no deletion timestamp while `new` has one,
`PrepareForUpdate` returns the submitted object untouched: its generation is
the one it carried on entry, hence `old.Generation` whenever it carried that. -/
theorem PrepareForUpdate_noop (DeepEqual : σ → σ → Bool)
    (old new : ShootExtensionStatus σ)
    (hs : DeepEqual old.Statuses new.Statuses = true)
    (hd : ¬ (old.DeletionTimestamp = none ∧ new.DeletionTimestamp ≠ none)) :
    PrepareForUpdate DeepEqual new old = new ∧
    (PrepareForUpdate DeepEqual new old).Generation = new.Generation ∧
    (new.Generation = old.Generation →
      (PrepareForUpdate DeepEqual new old).Generation = old.Generation) := by
  have hnb : ¬ generationBumpCondition DeepEqual old new := by
    rintro (h | h)
    · rw [hs] at h
      exact Bool.noConfusion h
    · exact hd h
  have he := PrepareForUpdate_of_not_bump DeepEqual old new hnb
  exact ⟨he, by rw [he], fun hg => by rw [he, hg]⟩

/-- C4, an instance: an update that only replaces the labels of a record whose
deletion timestamp was already set keeps generation 3. -/
theorem PrepareForUpdate_noop_witness :
    PrepareForUpdate sliceDeepEqual
        (relabel (mkRecord 3 (some 9) [("a", "x")]) [("team", "blue")])
        (mkRecord 3 (some 9) [("a", "x")])
      = relabel (mkRecord 3 (some 9) [("a", "x")]) [("team", "blue")] ∧
    (PrepareForUpdate sliceDeepEqual
        (relabel (mkRecord 3 (some 9) [("a", "x")]) [("team", "blue")])
        (mkRecord 3 (some 9) [("a", "x")])).Generation = 3 :=
  ⟨(PrepareForUpdate_noop sliceDeepEqual (mkRecord 3 (some 9) [("a", "x")])
      (relabel (mkRecord 3 (some 9) [("a", "x")]) [("team", "blue")])
      (by decide) (by decide)).1,
   (PrepareForUpdate_noop sliceDeepEqual (mkRecord 3 (some 9) [("a", "x")])
      (relabel (mkRecord 3 (some 9) [("a", "x")]) [("team", "blue")])
      (by decide) (by decide)).2.2 (by decide)⟩

/-- C5: `PrepareForCreate` leaves every record, whatever generation it was
submitted with, with `Generation = 1`. -/
theorem PrepareForCreate_generation (obj : ShootExtensionStatus σ) :
    (PrepareForCreate obj).Generation = 1 := by
  rfl

end shootextensionstatus

end Gardener

namespace Gardener

namespace network

variable {ε ι δ ω : Type}

/-! ## The lifecycle operations of the network actuator -/

/-- `Reconcile` when the image lookup fails. -/
theorem Reconcile_of_findImage_error (env : Env ε ι δ ω) (network : Network)
    (cluster : Cluster) (s : ω) (e : ε)
    (himg : env.FindImage env.ImageNameKindnet cluster.Shoot.Spec.Kubernetes.Version
      = Except.error e) :
    Reconcile env network cluster s =
      { err := some e,
        calls := [Call.FindImage env.ImageNameKindnet cluster.Shoot.Spec.Kubernetes.Version],
        state := s } := by
  simp only [Reconcile, himg]

/-- `Reconcile` when the image is found and serialization fails. -/
theorem Reconcile_of_serialize_error (env : Env ε ι δ ω) (network : Network)
    (cluster : Cluster) (s : ω) (image : ι) (e : ε)
    (himg : env.FindImage env.ImageNameKindnet cluster.Shoot.Spec.Kubernetes.Version
      = Except.ok image)
    (hser : env.AddAllAndSerialize (objects env network (env.ImageString image))
      = Except.error e) :
    Reconcile env network cluster s =
      { err := some e,
        calls := [Call.FindImage env.ImageNameKindnet cluster.Shoot.Spec.Kubernetes.Version,
          Call.AddAllAndSerialize (objects env network (env.ImageString image))],
        state := s } := by
  simp only [Reconcile, himg, hser]

/-- `Reconcile` when the image is found and serialization succeeds. -/
theorem Reconcile_of_rendered (env : Env ε ι δ ω) (network : Network)
    (cluster : Cluster) (s : ω) (image : ι) (data : δ)
    (himg : env.FindImage env.ImageNameKindnet cluster.Shoot.Spec.Kubernetes.Version
      = Except.ok image)
    (hser : env.AddAllAndSerialize (objects env network (env.ImageString image))
      = Except.ok data) :
    Reconcile env network cluster s =
      { err := (env.CreateForShoot s network.Namespace managedResourceName true data).1,
        calls := [Call.FindImage env.ImageNameKindnet cluster.Shoot.Spec.Kubernetes.Version,
          Call.AddAllAndSerialize (objects env network (env.ImageString image)),
          Call.CreateForShoot network.Namespace managedResourceName true data],
        state := (env.CreateForShoot s network.Namespace managedResourceName true data).2 } := by
  simp only [Reconcile, himg, hser]

/-- Every handle addressed by `Reconcile` is the one of the network's namespace. -/
theorem Reconcile_handles (env : Env ε ι δ ω) (network : Network) (cluster : Cluster)
    (s : ω) (h : String × String) (hh : h ∈ (Reconcile env network cluster s).handles) :
    h = (network.Namespace, managedResourceName) := by
  cases himg : env.FindImage env.ImageNameKindnet cluster.Shoot.Spec.Kubernetes.Version with
  | error e =>
    rw [Reconcile_of_findImage_error env network cluster s e himg] at hh
    simp [Result.handles, Call.handle] at hh
  | ok image =>
    cases hser : env.AddAllAndSerialize (objects env network (env.ImageString image)) with
    | error e =>
      rw [Reconcile_of_serialize_error env network cluster s image e himg hser] at hh
      simp [Result.handles, Call.handle] at hh
    | ok data =>
      rw [Reconcile_of_rendered env network cluster s image data himg hser] at hh
      simpa [Result.handles, Call.handle] using hh

/-! ## Claims on the network actuator -/

/-- C6: `Migrate` is `Delete`: for every network, cluster context, state and
behaviour of what lies outside the actuator, `Migrate` has the result of
`Delete` (returned error, calls made, state left), and the only call it makes
is one `DeleteForShoot` for the managed resource: no image lookup, no
serialization and no `CreateForShoot`. -/
theorem Migrate_eq_Delete (env : Env ε ι δ ω) (network : Network) (cluster : Cluster)
    (s : ω) :
    Migrate env network cluster s = Delete env network cluster s ∧
    (Migrate env network cluster s).calls
      = [Call.DeleteForShoot network.Namespace managedResourceName] ∧
    (Migrate env network cluster s).err
      = (env.DeleteForShoot s network.Namespace managedResourceName).1 ∧
    (Migrate env network cluster s).state
      = (env.DeleteForShoot s network.Namespace managedResourceName).2 :=
  ⟨rfl, rfl, rfl, rfl⟩

/-- C7: `Restore` is `Reconcile`: for every network, cluster context, state and
behaviour of the image lookup, the serializer and the resource applier,
`Restore` has the result of `Reconcile`: the same returned error, the same
calls with the same arguments (so the same objects are serialized and the same
bundle is applied), and the same state left. -/
theorem Restore_eq_Reconcile (env : Env ε ι δ ω) (network : Network) (cluster : Cluster)
    (s : ω) :
    Restore env network cluster s = Reconcile env network cluster s ∧
    (Restore env network cluster s).err = (Reconcile env network cluster s).err ∧
    (Restore env network cluster s).calls = (Reconcile env network cluster s).calls ∧
    (Restore env network cluster s).state = (Reconcile env network cluster s).state :=
  ⟨rfl, rfl, rfl, rfl⟩

/-- C8: errors of the resource applier propagate unchanged and without retry:
once the image lookup and the serialization have succeeded, `Reconcile` returns
exactly what its single `CreateForShoot` call returns, and `Delete` returns
exactly what its single `DeleteForShoot` call returns; each operation calls the
applier exactly once. -/
theorem applier_error_propagates (env : Env ε ι δ ω) (network : Network)
    (cluster : Cluster) (s : ω) (image : ι) (data : δ)
    (himg : env.FindImage env.ImageNameKindnet cluster.Shoot.Spec.Kubernetes.Version
      = Except.ok image)
    (hser : env.AddAllAndSerialize (objects env network (env.ImageString image))
      = Except.ok data) :
    (Reconcile env network cluster s).err
      = (env.CreateForShoot s network.Namespace managedResourceName true data).1 ∧
    (Reconcile env network cluster s).applierCalls
      = [Call.CreateForShoot network.Namespace managedResourceName true data] ∧
    (Delete env network cluster s).err
      = (env.DeleteForShoot s network.Namespace managedResourceName).1 ∧
    (Delete env network cluster s).applierCalls
      = [Call.DeleteForShoot network.Namespace managedResourceName] := by
  rw [Reconcile_of_rendered env network cluster s image data himg hser]
  exact ⟨rfl, rfl, rfl, rfl⟩

/-- C8, an instance: in a frozen namespace the example applier rejects both
calls, and `Reconcile` and `Delete` return its error as it is. -/
theorem applier_error_propagates_witness :
    (Reconcile exampleEnv frozenNetwork exampleCluster exampleState).err
      = some "namespace shoot--dev--frozen is frozen" ∧
    (Reconcile exampleEnv frozenNetwork exampleCluster exampleState).applierCalls
      = [Call.CreateForShoot "shoot--dev--frozen" "extension-networking-local" true
          (objects exampleEnv frozenNetwork "docker.io/kindest/kindnetd:v20210326-1e038dc5")] ∧
    (Delete exampleEnv frozenNetwork exampleCluster exampleState).err
      = some "namespace shoot--dev--frozen is frozen" ∧
    (Delete exampleEnv frozenNetwork exampleCluster exampleState).applierCalls
      = [Call.DeleteForShoot "shoot--dev--frozen" "extension-networking-local"] :=
  applier_error_propagates exampleEnv frozenNetwork exampleCluster exampleState
    ("docker.io/kindest/kindnetd", "v20210326-1e038dc5")
    (objects exampleEnv frozenNetwork "docker.io/kindest/kindnetd:v20210326-1e038dc5")
    rfl rfl

/-- C9: a render failure is surfaced and never defaulted: if the lookup of the
kindnet image at the shoot's Kubernetes version fails with error `e`, then
`Reconcile` returns `e`, leaves the state as it was and makes no call to the
resource applier (nor to the serializer); and if the lookup succeeds and the
serialization fails with `e`, then `Reconcile` returns `e`, leaves the state as
it was and makes no call to the resource applier. -/
theorem render_failure_surfaces (env : Env ε ι δ ω) (network : Network)
    (cluster : Cluster) (s : ω) (e : ε) :
    (env.FindImage env.ImageNameKindnet cluster.Shoot.Spec.Kubernetes.Version
        = Except.error e →
      (Reconcile env network cluster s).err = some e ∧
      (Reconcile env network cluster s).applierCalls = [] ∧
      (Reconcile env network cluster s).calls
        = [Call.FindImage env.ImageNameKindnet cluster.Shoot.Spec.Kubernetes.Version] ∧
      (Reconcile env network cluster s).state = s) ∧
    (∀ image : ι,
      env.FindImage env.ImageNameKindnet cluster.Shoot.Spec.Kubernetes.Version
        = Except.ok image →
      env.AddAllAndSerialize (objects env network (env.ImageString image))
        = Except.error e →
      (Reconcile env network cluster s).err = some e ∧
      (Reconcile env network cluster s).applierCalls = [] ∧
      (Reconcile env network cluster s).state = s) := by
  constructor
  · intro himg
    rw [Reconcile_of_findImage_error env network cluster s e himg]
    exact ⟨rfl, rfl, rfl, rfl⟩
  · intro image himg hser
    rw [Reconcile_of_serialize_error env network cluster s image e himg hser]
    exact ⟨rfl, rfl, rfl⟩

/-- C9, two instances: for a Kubernetes version without a kindnet image
`Reconcile` returns the lookup error and calls nothing but the lookup; for a
network that the example serializer refuses it returns the serializer's error
and does not call the applier. -/
theorem render_failure_surfaces_witness :
    ((Reconcile exampleEnv exampleNetwork unknownCluster exampleState).err
        = some "could not find image kindnet for version 0.9.0" ∧
      (Reconcile exampleEnv exampleNetwork unknownCluster exampleState).applierCalls = [] ∧
      (Reconcile exampleEnv exampleNetwork unknownCluster exampleState).calls
        = [Call.FindImage "kindnet" "0.9.0"] ∧
      (Reconcile exampleEnv exampleNetwork unknownCluster exampleState).state
        = exampleState) ∧
    ((Reconcile exampleEnv emptySubnetNetwork exampleCluster exampleState).err
        = some "pod subnet must not be empty" ∧
      (Reconcile exampleEnv emptySubnetNetwork exampleCluster exampleState).applierCalls = [] ∧
      (Reconcile exampleEnv emptySubnetNetwork exampleCluster exampleState).state
        = exampleState) :=
  ⟨(render_failure_surfaces exampleEnv exampleNetwork unknownCluster exampleState
      "could not find image kindnet for version 0.9.0").1 rfl,
   (render_failure_surfaces exampleEnv emptySubnetNetwork exampleCluster exampleState
      "pod subnet must not be empty").2
      ("docker.io/kindest/kindnetd", "v20210326-1e038dc5") rfl rfl⟩

/-- C10: the managed-resource handle is stable: for every network `n`, cluster
context, state and behaviour of what lies outside the actuator, every call
that `Reconcile`, `Delete`, `Migrate` or `Restore` makes to the resource
applier addresses the handle `(n.Namespace, "extension-networking-local")`;
`Delete` and `Migrate` always address exactly this handle, and so do
`Reconcile` and `Restore` whenever the image lookup and the serialization
succeed.  The handle is a function of `n.Namespace` alone. -/
theorem handle_stable (env : Env ε ι δ ω) (network : Network) (cluster : Cluster)
    (s : ω) :
    (∀ h : String × String,
      h ∈ (Reconcile env network cluster s).handles ++ (Delete env network cluster s).handles
          ++ (Migrate env network cluster s).handles
          ++ (Restore env network cluster s).handles →
      h = (network.Namespace, "extension-networking-local")) ∧
    (Delete env network cluster s).handles
      = [(network.Namespace, "extension-networking-local")] ∧
    (Migrate env network cluster s).handles
      = [(network.Namespace, "extension-networking-local")] ∧
    (∀ (image : ι) (data : δ),
      env.FindImage env.ImageNameKindnet cluster.Shoot.Spec.Kubernetes.Version
        = Except.ok image →
      env.AddAllAndSerialize (objects env network (env.ImageString image))
        = Except.ok data →
      (Reconcile env network cluster s).handles
        = [(network.Namespace, "extension-networking-local")] ∧
      (Restore env network cluster s).handles
        = [(network.Namespace, "extension-networking-local")]) := by
  have hdel : (Delete env network cluster s).handles
      = [(network.Namespace, "extension-networking-local")] := rfl
  have hmig : (Migrate env network cluster s).handles
      = [(network.Namespace, "extension-networking-local")] := rfl
  refine ⟨?_, hdel, hmig, ?_⟩
  · intro h hh
    rw [hdel, hmig] at hh
    simp only [List.mem_append, List.mem_singleton] at hh
    rcases hh with ((hh | hh) | hh) | hh
    · exact Reconcile_handles env network cluster s h hh
    · exact hh
    · exact hh
    · exact Reconcile_handles env network cluster s h hh
  · intro image data himg hser
    have hrec : (Reconcile env network cluster s).handles
        = [(network.Namespace, "extension-networking-local")] := by
      rw [Reconcile_of_rendered env network cluster s image data himg hser]
      rfl
    exact ⟨hrec, hrec⟩

/-- C10, an instance: for the example network, whose image lookup and
serialization succeed, `Reconcile` and `Restore` address the handle
`("shoot--dev--example", "extension-networking-local")`, and it is the only
handle addressed by any of the four operations. -/
theorem handle_stable_witness :
    ((Reconcile exampleEnv exampleNetwork exampleCluster exampleState).handles
        = [("shoot--dev--example", "extension-networking-local")] ∧
      (Restore exampleEnv exampleNetwork exampleCluster exampleState).handles
        = [("shoot--dev--example", "extension-networking-local")]) ∧
    (("shoot--dev--example", "extension-networking-local")
        ∈ (Reconcile exampleEnv exampleNetwork exampleCluster exampleState).handles
          ++ (Delete exampleEnv exampleNetwork exampleCluster exampleState).handles
          ++ (Migrate exampleEnv exampleNetwork exampleCluster exampleState).handles
          ++ (Restore exampleEnv exampleNetwork exampleCluster exampleState).handles ∧
      (("shoot--dev--example", "extension-networking-local") : String × String)
        = (exampleNetwork.Namespace, "extension-networking-local")) :=
  ⟨(handle_stable exampleEnv exampleNetwork exampleCluster exampleState).2.2.2
      ("docker.io/kindest/kindnetd", "v20210326-1e038dc5")
      (objects exampleEnv exampleNetwork "docker.io/kindest/kindnetd:v20210326-1e038dc5")
      rfl rfl,
   by decide,
   (handle_stable exampleEnv exampleNetwork exampleCluster exampleState).1
      ("shoot--dev--example", "extension-networking-local") (by decide)⟩

/-! ## Claims on the rendered bundle -/

/-- The rendered objects depend on the network only through its pod subnet. -/
theorem objects_congr (env : Env ε ι δ ω) (network network' : Network) (image : String)
    (hcidr : network.Spec.PodCIDR = network'.Spec.PodCIDR) :
    objects env network image = objects env network' image := by
  simp only [objects, daemonSet, hcidr]

/-- The identities of the rendered objects. -/
theorem objects_identities (env : Env ε ι δ ω) (network : Network) (image : String) :
    (objects env network image).map k8s.Object.identity =
      [("ServiceAccount", "kube-system", "kindnet"),
       ("ClusterRole", "", "kindnet"),
       ("ClusterRoleBinding", "", "kindnet"),
       ("DaemonSet", "kube-system", "kindnet")] := by
  rfl

/-- Every argument list that `Reconcile` serializes is the rendered bundle of
some image. -/
theorem Reconcile_serialized (env : Env ε ι δ ω) (network : Network) (cluster : Cluster)
    (s : ω) (os : List k8s.Object) (hos : os ∈ (Reconcile env network cluster s).serialized) :
    ∃ image : String, os = objects env network image := by
  cases himg : env.FindImage env.ImageNameKindnet cluster.Shoot.Spec.Kubernetes.Version with
  | error e =>
    rw [Reconcile_of_findImage_error env network cluster s e himg] at hos
    simp [Result.serialized] at hos
  | ok image =>
    refine ⟨env.ImageString image, ?_⟩
    cases hser : env.AddAllAndSerialize (objects env network (env.ImageString image)) with
    | error e =>
      rw [Reconcile_of_serialize_error env network cluster s image e himg hser] at hos
      simpa [Result.serialized] using hos
    | ok data =>
      rw [Reconcile_of_rendered env network cluster s image data himg hser] at hos
      simpa [Result.serialized] using hos

/-- C11: rendering is deterministic: two `Reconcile` calls, in whatever states,
whose networks have the same `Spec.PodCIDR` and whose cluster contexts have the
same shoot Kubernetes version (hence the same resolved image) hand the same
ordered list of objects to serialization; and the bundle of any network and
image consists of the fixed ServiceAccount, ClusterRole and ClusterRoleBinding
followed by a DaemonSet that is the DaemonSet of any other network and image
with only the container image and the `POD_SUBNET` value replaced. -/
theorem render_deterministic (env : Env ε ι δ ω) (network network' : Network)
    (cluster cluster' : Cluster) (s s' : ω)
    (hcidr : network.Spec.PodCIDR = network'.Spec.PodCIDR)
    (hver : cluster.Shoot.Spec.Kubernetes.Version = cluster'.Shoot.Spec.Kubernetes.Version) :
    (Reconcile env network cluster s).serialized
      = (Reconcile env network' cluster' s').serialized ∧
    (∀ (m m' : Network) (image image' : String),
      objects env m' image' =
        [ k8s.Object.ServiceAccount serviceAccount,
          k8s.Object.ClusterRole clusterRole,
          k8s.Object.ClusterRoleBinding (clusterRoleBinding env),
          k8s.Object.DaemonSet
            ((daemonSet m image).withImageAndPodSubnet image' m'.Spec.PodCIDR) ]) := by
  constructor
  · cases himg : env.FindImage env.ImageNameKindnet cluster.Shoot.Spec.Kubernetes.Version with
    | error e =>
      rw [Reconcile_of_findImage_error env network cluster s e himg,
        Reconcile_of_findImage_error env network' cluster' s' e (hver ▸ himg), hver]
      rfl
    | ok image =>
      have hobj := objects_congr env network network' (env.ImageString image) hcidr
      cases hser : env.AddAllAndSerialize (objects env network (env.ImageString image)) with
      | error e =>
        rw [Reconcile_of_serialize_error env network cluster s image e himg hser,
          Reconcile_of_serialize_error env network' cluster' s' image e (hver ▸ himg)
            (hobj ▸ hser), hver, hobj]
        rfl
      | ok data =>
        rw [Reconcile_of_rendered env network cluster s image data himg hser,
          Reconcile_of_rendered env network' cluster' s' image data (hver ▸ himg)
            (hobj ▸ hser), hver, hobj]
        rfl
  · intro m m' image image'
    rfl

/-- C11, an instance: the example network in the example state and another
network with the same pod subnet (another name, namespace, labels and service
range) in a state that already holds a bundle serialize the same objects. -/
theorem render_deterministic_witness :
    (Reconcile exampleEnv exampleNetwork exampleCluster exampleState).serialized
      = (Reconcile exampleEnv otherNetwork exampleCluster
          { frozen := [], present := [(("shoot--prod--other", "old"), [])] }).serialized ∧
    (Reconcile exampleEnv exampleNetwork exampleCluster exampleState).serialized
      = [objects exampleEnv exampleNetwork "docker.io/kindest/kindnetd:v20210326-1e038dc5"] :=
  ⟨(render_deterministic exampleEnv exampleNetwork otherNetwork exampleCluster exampleCluster
      exampleState { frozen := [], present := [(("shoot--prod--other", "old"), [])] }
      rfl rfl).1,
   rfl⟩

/-- C12: in every list of objects that `Reconcile` hands to serialization the
identities (kind, namespace, name) are pairwise distinct; when the image
lookup succeeds such a list is handed over, and it is the bundle, whose
identities are those of the ServiceAccount `kube-system/kindnet`, the
ClusterRole `kindnet`, the ClusterRoleBinding `kindnet` and the DaemonSet
`kube-system/kindnet`. -/
theorem bundle_identities_distinct (env : Env ε ι δ ω) (network : Network)
    (cluster : Cluster) (s : ω) :
    (∀ os : List k8s.Object, os ∈ (Reconcile env network cluster s).serialized →
      (os.map k8s.Object.identity).Nodup) ∧
    (∀ image : ι,
      env.FindImage env.ImageNameKindnet cluster.Shoot.Spec.Kubernetes.Version
        = Except.ok image →
      (Reconcile env network cluster s).serialized
        = [objects env network (env.ImageString image)] ∧
      (objects env network (env.ImageString image)).map k8s.Object.identity =
        [("ServiceAccount", "kube-system", "kindnet"),
         ("ClusterRole", "", "kindnet"),
         ("ClusterRoleBinding", "", "kindnet"),
         ("DaemonSet", "kube-system", "kindnet")]) := by
  constructor
  · intro os hos
    obtain ⟨image, rfl⟩ := Reconcile_serialized env network cluster s os hos
    rw [objects_identities]
    decide
  · intro image himg
    refine ⟨?_, objects_identities env network (env.ImageString image)⟩
    cases hser : env.AddAllAndSerialize (objects env network (env.ImageString image)) with
    | error e =>
      rw [Reconcile_of_serialize_error env network cluster s image e himg hser]
      rfl
    | ok data =>
      rw [Reconcile_of_rendered env network cluster s image data himg hser]
      rfl

/-- C12, an instance: the bundle rendered for the example network has pairwise
distinct identities. -/
theorem bundle_identities_distinct_witness :
    ((objects exampleEnv exampleNetwork
        "docker.io/kindest/kindnetd:v20210326-1e038dc5").map k8s.Object.identity).Nodup ∧
    (Reconcile exampleEnv exampleNetwork exampleCluster exampleState).serialized
      = [objects exampleEnv exampleNetwork
          (exampleEnv.ImageString ("docker.io/kindest/kindnetd", "v20210326-1e038dc5"))] :=
  ⟨(bundle_identities_distinct exampleEnv exampleNetwork exampleCluster exampleState).1
      (objects exampleEnv exampleNetwork "docker.io/kindest/kindnetd:v20210326-1e038dc5")
      (by decide),
   ((bundle_identities_distinct exampleEnv exampleNetwork exampleCluster exampleState).2
      ("docker.io/kindest/kindnetd", "v20210326-1e038dc5") rfl).1⟩

end network

namespace backupentry

/-! ## Names of backup entries -/

/-- The loop of `Split` always returns at least one piece. -/
theorem splitLoop_ne_nil (sep : List Char) : ∀ (s : List Char) (skip : Nat) (token : List Char),
    splitLoop sep s skip token ≠ []
  | [], _, _ => by simp [splitLoop]
  | _ :: cs, skip + 1, token => by
    rw [splitLoop]
    exact splitLoop_ne_nil sep cs skip token
  | c :: cs, 0, token => by
    rw [splitLoop]
    split
    · simp
    · exact splitLoop_ne_nil sep cs 0 (c :: token)

/-- A string without `--` is not split. -/
theorem splitLoop_of_not_infix : ∀ (uid token : List Char), ¬ ['-', '-'] <:+: uid →
    splitLoop ['-', '-'] uid 0 token = [token.reverse ++ uid]
  | [], token, _ => by simp [splitLoop]
  | c :: cs, token, h => by
    have hp : List.isPrefixOf ['-', '-'] (c :: cs) = false := by
      cases hb : List.isPrefixOf ['-', '-'] (c :: cs)
      · rfl
      · exact absurd (List.isPrefixOf_iff_prefix.1 hb).isInfix h
    have hcs : ¬ ['-', '-'] <:+: cs := fun hi => h (hi.trans (List.suffix_cons c cs).isInfix)
    rw [splitLoop, if_neg (by simp [hp]), splitLoop_of_not_infix cs (c :: token) hcs]
    simp


/-- Splitting `<technicalID>--<uid>`: the last piece is `uid`, provided that
`technicalID` does not end in `-` and `uid` does not contain `--`. -/
theorem splitLoop_name (uid : List Char) (huid : ¬ ['-', '-'] <:+: uid) :
    ∀ (technicalID token : List Char), technicalID.getLast? ≠ some '-' →
      ∃ front : List (List Char),
        splitLoop ['-', '-'] (technicalID ++ ['-', '-'] ++ uid) 0 token = front ++ [uid]
  | [], token, _ => by
    refine ⟨[token.reverse], ?_⟩
    simp [splitLoop, splitLoop_of_not_infix uid [] huid]
  | [c], token, h => by
    have hc : c ≠ '-' := by simpa using h
    obtain ⟨front, hfront⟩ := splitLoop_name uid huid [] (c :: token) (by simp)
    refine ⟨front, ?_⟩
    rw [← hfront]
    simp [splitLoop, Ne.symm hc]
  | c :: d :: rest, token, h => by
    have hrest : (d :: rest).getLast? ≠ some '-' := by
      simpa [List.getLast?_cons_cons] using h
    by_cases hcd : c = '-' ∧ d = '-'
    · have hrest' : rest.getLast? ≠ some '-' := by
        cases rest with
        | nil => simp
        | cons e rest' => simpa [List.getLast?_cons_cons] using hrest
      obtain ⟨front, hfront⟩ := splitLoop_name uid huid rest [] hrest'
      refine ⟨token.reverse :: front, ?_⟩
      obtain ⟨rfl, rfl⟩ := hcd
      simp [splitLoop]
      simpa using hfront
    · obtain ⟨front, hfront⟩ := splitLoop_name uid huid (d :: rest) (c :: token) hrest
      refine ⟨front, ?_⟩
      rw [← hfront]
      have hp : List.isPrefixOf ['-', '-'] (c :: d :: (rest ++ ['-', '-'] ++ uid)) = false := by
        simp [List.isPrefixOf]
        intro hc
        exact fun hd => hcd ⟨hc.symm, hd.symm⟩
      simp only [List.cons_append] at hp ⊢
      rw [splitLoop, if_neg (by rw [hp]; exact Bool.false_ne_true)]


/-- The last index of a list that ends in `u` holds `u`. -/
theorem getElem?_length_sub_one_append_singleton (front : List (List Char)) (u : List Char) :
    (front ++ [u])[(front ++ [u]).length - 1]? = some u := by
  simp

/-- Trimming a suffix that is there removes it. -/
theorem TrimSuffix_append (s suffix : List Char) : TrimSuffix (s ++ suffix) suffix = s := by
  have h : HasSuffix (s ++ suffix) suffix = true := by
    simp [HasSuffix]
  simp [TrimSuffix, h]

/-- Trimming a leading part that is there removes it. -/
theorem TrimPrefix_append (pre s : List Char) : TrimPrefix (pre ++ s) pre = s := by
  have h : HasPrefix (pre ++ s) pre = true := by
    simp [HasPrefix]
  simp [TrimPrefix, h]

/-- Extraction from a name which, once the source marker is trimmed, is
`<technicalID>--<uid>`. -/
theorem extract_of_trimmed (name technicalID uid : List Char)
    (hend : technicalID.getLast? ≠ some '-') (huid : ¬ "--".toList <:+: uid)
    (htrim : TrimPrefix name (SourcePrefix ++ "-".toList) = technicalID ++ "--".toList ++ uid) :
    ExtractShootDetailsFromBackupEntryName name = some (technicalID, uid) := by
  obtain ⟨front, hfront⟩ := splitLoop_name uid huid technicalID [] hend
  have htok : (Split (technicalID ++ "--".toList ++ uid) "--".toList)[
      (Split (technicalID ++ "--".toList ++ uid) "--".toList).length - 1]? = some uid := by
    have : Split (technicalID ++ "--".toList ++ uid) "--".toList = front ++ [uid] := hfront
    rw [this]
    exact getElem?_length_sub_one_append_singleton front uid
  unfold ExtractShootDetailsFromBackupEntryName
  simp only [htrim, htok]
  rw [List.append_assoc, TrimSuffix_append]

/-- The name `<technicalID>--<uid>` starts with `source-` only if `technicalID`
does or is `source`. -/
theorem not_hasPrefix_name (technicalID uid : List Char)
    (hpre : HasPrefix technicalID (SourcePrefix ++ "-".toList) = false)
    (hne : technicalID ≠ SourcePrefix) :
    HasPrefix (technicalID ++ "--".toList ++ uid) (SourcePrefix ++ "-".toList) = false := by
  have hs : SourcePrefix ++ "-".toList = ['s', 'o', 'u', 'r', 'c', 'e', '-'] := rfl
  have hs' : SourcePrefix = ['s', 'o', 'u', 'r', 'c', 'e'] := rfl
  have hd : "--".toList = ['-', '-'] := rfl
  rw [hs] at hpre ⊢
  rw [hs'] at hne
  rw [hd]
  rcases technicalID with _ | ⟨c1, _ | ⟨c2, _ | ⟨c3, _ | ⟨c4, _ | ⟨c5, _ | ⟨c6, _ | ⟨c7, t⟩⟩⟩⟩⟩⟩⟩ <;>
    simp_all [HasPrefix, List.isPrefixOf]
  · intro h1 h2 h3 h4 h5 h6
    exact hne h1.symm h2.symm h3.symm h4.symm h5.symm h6.symm
  · exact hpre

/-- C16 (as amended): `ExtractShootDetailsFromBackupEntryName` inverts the naming
scheme of backup entries: for every `technicalID` that does not end in `-` and
does not start with `source-`, and every `uid` that does not contain `--`, the
name `source-<technicalID>--<uid>` yields `(technicalID, uid)`, and so does
the name `<technicalID>--<uid>` provided that `technicalID` is not `source`
itself; this also when `technicalID` contains `--`.  On no input at all does
the call fail with an index out of range. -/
theorem extract_inverts_naming (technicalID uid : List Char)
    (hend : technicalID.getLast? ≠ some '-')
    (hpre : HasPrefix technicalID (SourcePrefix ++ "-".toList) = false)
    (huid : ¬ "--".toList <:+: uid) :
    (technicalID ≠ SourcePrefix →
      ExtractShootDetailsFromBackupEntryName (backupEntryName technicalID uid)
        = some (technicalID, uid)) ∧
    ExtractShootDetailsFromBackupEntryName (sourceBackupEntryName technicalID uid)
      = some (technicalID, uid) ∧
    (∀ name : List Char, ∃ details : List Char × List Char,
      ExtractShootDetailsFromBackupEntryName name = some details) := by
  refine ⟨fun hne => ?_, ?_, ?_⟩
  · apply extract_of_trimmed _ technicalID uid hend huid
    have h := not_hasPrefix_name technicalID uid hpre hne
    simp only [backupEntryName, TrimPrefix, h]
    rfl
  · apply extract_of_trimmed _ technicalID uid hend huid
    exact TrimPrefix_append (SourcePrefix ++ "-".toList) (backupEntryName technicalID uid)
  · intro name
    unfold ExtractShootDetailsFromBackupEntryName
    have hne := splitLoop_ne_nil "--".toList
      (TrimPrefix name (SourcePrefix ++ "-".toList)) 0 []
    have hlt : (Split (TrimPrefix name (SourcePrefix ++ "-".toList)) "--".toList).length - 1
        < (Split (TrimPrefix name (SourcePrefix ++ "-".toList)) "--".toList).length := by
      have : 0 < (Split (TrimPrefix name (SourcePrefix ++ "-".toList)) "--".toList).length :=
        List.length_pos.2 hne
      omega
    simp only [List.getElem?_eq_getElem hlt]
    exact ⟨_, rfl⟩

/-- C16, an instance: the technical ID `shoot--dev--example`, which itself
contains `--`, and the UID `1234-ab` are recovered from both names. -/
theorem extract_inverts_naming_witness :
    ExtractShootDetailsFromBackupEntryName "shoot--dev--example--1234-ab".toList
      = some ("shoot--dev--example".toList, "1234-ab".toList) ∧
    ExtractShootDetailsFromBackupEntryName "source-shoot--dev--example--1234-ab".toList
      = some ("shoot--dev--example".toList, "1234-ab".toList) :=
  ⟨(extract_inverts_naming "shoot--dev--example".toList "1234-ab".toList
      (by decide) (by decide) (by decide)).1 (by decide),
   (extract_inverts_naming "shoot--dev--example".toList "1234-ab".toList
      (by decide) (by decide) (by decide)).2.1⟩

/-- C16, counterexample to the claim as stated: the technical ID `source` does
not end in `-` and does not start with `source-`, the UID `1234` does not
contain `--`, and yet the name `source--1234` yields `(-1234, -1234)`: the
leading `source-` is trimmed and the rest holds no `--`. -/
theorem extract_fails_for_source :
    "source".toList.getLast? ≠ some '-' ∧
    HasPrefix "source".toList "source-".toList = false ∧
    ¬ "--".toList <:+: "1234".toList ∧
    ExtractShootDetailsFromBackupEntryName ("source".toList ++ "--".toList ++ "1234".toList)
      = some ("-1234".toList, "-1234".toList) ∧
    ExtractShootDetailsFromBackupEntryName ("source".toList ++ "--".toList ++ "1234".toList)
      ≠ some ("source".toList, "1234".toList) := by
  decide

end backupentry

namespace utils

variable {ε α β ρ κ : Type}

/-! ## Claims on the leader election configuration -/

/-- C13: if the host name cannot be determined (`os.Hostname` fails with `e`),
`MakeLeaderElectionConfig` returns no configuration and an error that wraps
`e` (its message is `unable to get hostname: ` followed by the message of
`e`), and `resourcelock.New` is not called; and when the host name `h` is
determined, `resourcelock.New` is called once, with the configured
`ResourceLock`, `ResourceNamespace` and `ResourceName` and with a lock
configuration whose `Identity` is `h`. -/
theorem hostname_failure_surfaces (env : Env ε α β ρ κ) (cfg : LeaderElectionConfiguration)
    (client : Interface α β) (recorder : ρ) :
    (∀ e : ε, env.Hostname = Except.error e →
      (MakeLeaderElectionConfig env cfg client recorder).config = none ∧
      (MakeLeaderElectionConfig env cfg client recorder).err
        = some { msg := "unable to get hostname: " ++ env.Error e, err := e } ∧
      (MakeLeaderElectionConfig env cfg client recorder).calls = [Call.Hostname]) ∧
    (∀ h : String, env.Hostname = Except.ok h →
      (MakeLeaderElectionConfig env cfg client recorder).calls =
        [Call.Hostname,
         Call.New cfg.ResourceLock cfg.ResourceNamespace cfg.ResourceName
           client.CoreV1 client.CoordinationV1
           { Identity := h, EventRecorder := recorder }]) := by
  constructor
  · intro e he
    simp only [MakeLeaderElectionConfig, he]
    exact ⟨trivial, trivial, trivial⟩
  · intro h hh
    simp only [MakeLeaderElectionConfig, hh]
    cases env.New cfg.ResourceLock cfg.ResourceNamespace cfg.ResourceName
      client.CoreV1 client.CoordinationV1 { Identity := h, EventRecorder := recorder } <;> rfl

/-- C13, two instances: without a host name the result is the wrapped error and
no lock is built; on the host `controller-0` the lock is built with identity
`controller-0` from the configured type, namespace and name. -/
theorem hostname_failure_surfaces_witness :
    ((MakeLeaderElectionConfig (exampleEnv (Except.error "no hostname")) disorderedConfiguration
        { CoreV1 := (), CoordinationV1 := () } ()).config = none ∧
      (MakeLeaderElectionConfig (exampleEnv (Except.error "no hostname")) disorderedConfiguration
        { CoreV1 := (), CoordinationV1 := () } ()).err
        = some { msg := "unable to get hostname: no hostname", err := "no hostname" } ∧
      (MakeLeaderElectionConfig (exampleEnv (Except.error "no hostname")) disorderedConfiguration
        { CoreV1 := (), CoordinationV1 := () } ()).calls = [Call.Hostname]) ∧
    (MakeLeaderElectionConfig (exampleEnv (Except.ok "controller-0")) disorderedConfiguration
        { CoreV1 := (), CoordinationV1 := () } ()).calls =
      [Call.Hostname,
       Call.New "leases" "garden" "gardener-controller-manager-leader-election" () ()
         { Identity := "controller-0", EventRecorder := () }] :=
  ⟨(hostname_failure_surfaces (exampleEnv (Except.error "no hostname")) disorderedConfiguration
      { CoreV1 := (), CoordinationV1 := () } ()).1 "no hostname" rfl,
   (hostname_failure_surfaces (exampleEnv (Except.ok "controller-0")) disorderedConfiguration
      { CoreV1 := (), CoordinationV1 := () } ()).2 "controller-0" rfl⟩

/-- C14: `MakeLeaderElectionConfig` does not check the durations: for every
configuration, whatever the order of its `LeaseDuration`, `RenewDeadline` and
`RetryPeriod`, whenever the host name `h` is determined and the lock `lock` is
built, it returns no error and a configuration holding `lock` and the three
configured durations unchanged. -/
theorem durations_not_checked (env : Env ε α β ρ κ) (cfg : LeaderElectionConfiguration)
    (client : Interface α β) (recorder : ρ) (h : String) (lock : κ)
    (hhost : env.Hostname = Except.ok h)
    (hlock : env.New cfg.ResourceLock cfg.ResourceNamespace cfg.ResourceName
      client.CoreV1 client.CoordinationV1 { Identity := h, EventRecorder := recorder }
        = Except.ok lock) :
    (MakeLeaderElectionConfig env cfg client recorder).err = none ∧
    (MakeLeaderElectionConfig env cfg client recorder).config =
      some { Lock := lock,
             LeaseDuration := cfg.LeaseDuration,
             RenewDeadline := cfg.RenewDeadline,
             RetryPeriod := cfg.RetryPeriod } := by
  simp only [MakeLeaderElectionConfig, hhost, hlock]
  exact ⟨trivial, trivial⟩

/-- C14, an instance: a configuration with `RetryPeriod` 10 s, `RenewDeadline`
5 s and `LeaseDuration` 1 s, which violates the ordering, is accepted and its
durations are handed on as they are. -/
theorem durations_not_checked_witness :
    ¬ (disorderedConfiguration.RetryPeriod < disorderedConfiguration.RenewDeadline ∧
        disorderedConfiguration.RenewDeadline < disorderedConfiguration.LeaseDuration) ∧
    (MakeLeaderElectionConfig (exampleEnv (Except.ok "controller-0")) disorderedConfiguration
        { CoreV1 := (), CoordinationV1 := () } ()).err = none ∧
    (MakeLeaderElectionConfig (exampleEnv (Except.ok "controller-0")) disorderedConfiguration
        { CoreV1 := (), CoordinationV1 := () } ()).config =
      some { Lock :=
               { lockType := "leases", ns := "garden",
                 name := "gardener-controller-manager-leader-election",
                 identity := "controller-0" },
             LeaseDuration := 1000000000,
             RenewDeadline := 5000000000,
             RetryPeriod := 10000000000 } :=
  ⟨by decide,
   durations_not_checked (exampleEnv (Except.ok "controller-0")) disorderedConfiguration
     { CoreV1 := (), CoordinationV1 := () } () "controller-0"
     { lockType := "leases", ns := "garden",
       name := "gardener-controller-manager-leader-election", identity := "controller-0" }
     rfl rfl⟩

end utils

namespace imports

/-! ## Claims on the defaults of the control plane imports -/

/-- C17: `SetDefaults_Imports` changes the seed restriction of the admission
controller exactly when, on entry, `Rbac.SeedAuthorizer.Enabled` is set and
true, `GardenerAdmissionController` is set with `Enabled = true` and its
`SeedRestriction` is unset, and then the seed restriction becomes
`{Enabled: true}`; a seed restriction that is already set (also
`{Enabled: false}`) is kept; after the call `GardenerControllerManager` and
`GardenerAdmissionController` are set, and a `GardenerControllerManager` that
was unset on entry has a `ComponentConfiguration` that is set. -/
theorem SetDefaults_Imports_seedRestriction (obj : Imports) :
    (seedRestrictionDue obj ↔
      seedRestrictionOf (SetDefaults_Imports obj) ≠ seedRestrictionOf obj) ∧
    (seedRestrictionDue obj →
      seedRestrictionOf (SetDefaults_Imports obj) = some { Enabled := true }) ∧
    (∀ r : SeedRestriction, seedRestrictionOf obj = some r →
      seedRestrictionOf (SetDefaults_Imports obj) = some r) ∧
    (SetDefaults_Imports obj).GardenerControllerManager ≠ none ∧
    (SetDefaults_Imports obj).GardenerAdmissionController ≠ none ∧
    (obj.GardenerControllerManager = none →
      (SetDefaults_Imports obj).GardenerControllerManager
        = some { ComponentConfiguration := some {} }) := by
  rcases obj with ⟨rbac, ⟨⟨adm⟩⟩, gcm, gac⟩
  rcases rbac with _ | ⟨_ | ⟨_ | b⟩⟩ <;> rcases gac with _ | ⟨en, _ | sr⟩ <;>
    rcases adm with _ | adm <;> rcases gcm with _ | gcm <;>
    (try cases b) <;> (try cases en) <;>
    simp [SetDefaults_Imports, seedRestrictionOf, seedRestrictionDue, Imports.setAdmission]

/-- C17, three instances: with the seed authorizer enabled and an enabled
admission controller, an unset seed restriction becomes `{Enabled: true}` and
the seed restriction `{Enabled: false}` is kept; and the unset controller
manager of these imports is set with a component configuration. -/
theorem SetDefaults_Imports_seedRestriction_witness :
    seedRestrictionOf (SetDefaults_Imports (exampleImports none)) = some { Enabled := true } ∧
    seedRestrictionOf (SetDefaults_Imports (exampleImports (some { Enabled := false })))
      = some { Enabled := false } ∧
    (SetDefaults_Imports (exampleImports none)).GardenerControllerManager
      = some { ComponentConfiguration := some {} } :=
  ⟨(SetDefaults_Imports_seedRestriction (exampleImports none)).2.1
      ⟨⟨_, _, rfl, rfl, rfl⟩, ⟨_, rfl, rfl, rfl⟩⟩,
   (SetDefaults_Imports_seedRestriction (exampleImports (some { Enabled := false }))).2.2.1
      { Enabled := false } rfl,
   (SetDefaults_Imports_seedRestriction (exampleImports none)).2.2.2.2.2 rfl⟩

end imports

end Gardener
